import Mathlib

/-!
Verification of the contractor-data-scraper repository.

The repository holds three standalone Python scripts
(`county_communications_scraper.py`, `legal_documents_scraper.py`,
`mvc_joc_tracker.py`).  Each script carries hand-curated literal data,
composes it into a report mapping with one `datetime.now().isoformat()`
timestamp, serializes the mapping with `json.dump(report, f, indent=2)`
to a fixed filename, and prints the same serialization to stdout.

We embed the scripts shallowly: Python dict/list/str/int/bool values
become the `JVal` type below (dicts keep insertion order, as Python
guarantees), `json.dumps(v, indent=2)` with its default
`ensure_ascii=True` escaping becomes `dumps`, `json.load` becomes
`loads`, `datetime.now().isoformat()` becomes an explicit `now : String`
parameter, and the filesystem becomes an explicit `FS` value threaded
through an `Except` for the write step.
-/

set_option maxHeartbeats 2000000
set_option maxRecDepth 10000

mutual
/-- A JSON-serializable Python value: `str`, `int`, `bool`, `list`, `dict`
(in insertion order).  `JArr` and `JObj` are the list/dict spines, kept as
mutual inductives so that all recursion over them is structural. -/
inductive JVal where
  | str (s : String)
  | num (n : Int)
  | bool (b : Bool)
  | arr (a : JArr)
  | obj (o : JObj)
  deriving DecidableEq
inductive JArr where
  | nil
  | cons (hd : JVal) (tl : JArr)
  deriving DecidableEq
inductive JObj where
  | nil
  | cons (key : String) (val : JVal) (tl : JObj)
  deriving DecidableEq
end

/-- `n` spaces. -/
def spaces : Nat → List Char
  | 0 => []
  | n + 1 => ' ' :: spaces n

/-- Newline followed by `2 * d` spaces: the separator `json.dumps` emits
before an item at nesting depth `d` when `indent=2`. -/
def nlIndent (d : Nat) : List Char :=
  '\n' :: spaces (2 * d)

/-- Lower-case hexadecimal digit, as `"%04x" % n` uses. -/
def hexDigit (n : Nat) : Char :=
  (['0', '1', '2', '3', '4', '5', '6', '7']
    ++ ['8', '9', 'a', 'b', 'c', 'd', 'e', 'f']).getD n '0'

/-- `\uXXXX` escape for a code unit `n < 0x10000`. -/
def uEscape (n : Nat) : List Char :=
  Char.ofNat 92 :: 'u' :: hexDigit (n / 4096 % 16) :: hexDigit (n / 256 % 16)
    :: hexDigit (n / 16 % 16) :: [hexDigit (n % 16)]

/-- How CPython's `json` encoder with `ensure_ascii=True` renders one
character: `"` and `\` and the C0 controls with short or `\uXXXX` escapes,
printable ASCII verbatim, everything above `0x7e` as `\uXXXX` (with a
surrogate pair above `0xffff`). -/
def escapeChar (c : Char) : List Char :=
  if c.toNat = 34 then [Char.ofNat 92, Char.ofNat 34]
  else if c.toNat = 92 then [Char.ofNat 92, Char.ofNat 92]
  else if c.toNat = 8 then [Char.ofNat 92, 'b']
  else if c.toNat = 9 then [Char.ofNat 92, 't']
  else if c.toNat = 10 then [Char.ofNat 92, 'n']
  else if c.toNat = 12 then [Char.ofNat 92, 'f']
  else if c.toNat = 13 then [Char.ofNat 92, 'r']
  else if c.toNat < 32 then uEscape c.toNat
  else if c.toNat < 127 then [c]
  else if c.toNat < 65536 then uEscape c.toNat
  else uEscape (55296 + (c.toNat - 65536) / 1024)
    ++ uEscape (56320 + (c.toNat - 65536) % 1024)

/-- Escape every character of a string body. -/
def escapeList : List Char → List Char
  | [] => []
  | c :: cs => escapeChar c ++ escapeList cs

/-- A JSON string literal: `"` body `"`. -/
def renderStr (s : String) : List Char :=
  Char.ofNat 34 :: (escapeList s.toList ++ [Char.ofNat 34])

/-- Decimal digits of `n`, most significant first; `fuel` bounds the
recursion and any value above `n` is enough. -/
def natDigitsAux : Nat → Nat → List Char
  | 0, _ => []
  | f + 1, n =>
    if n < 10 then [hexDigit n]
    else natDigitsAux f (n / 10) ++ [hexDigit (n % 10)]

/-- Decimal digits of `n`, most significant first. -/
def natDigits (n : Nat) : List Char :=
  natDigitsAux (n + 1) n

/-- A JSON integer, as Python's `str(int)` renders it. -/
def intChars (n : Int) : List Char :=
  if n < 0 then '-' :: natDigits n.natAbs else natDigits n.toNat

mutual
/-- `json.dumps(v, indent=2)` at nesting depth `d`, as a character list. -/
def renderV (d : Nat) : JVal → List Char
  | .str s => renderStr s
  | .num n => intChars n
  | .bool b => if b then ['t', 'r', 'u', 'e'] else ['f', 'a', 'l', 's', 'e']
  | .arr .nil => ['[', ']']
  | .arr (.cons x xs) =>
      '[' :: (nlIndent (d + 1) ++ renderV (d + 1) x ++ renderArr (d + 1) xs
        ++ nlIndent d ++ [']'])
  | .obj .nil => [Char.ofNat 123, Char.ofNat 125]
  | .obj (.cons k v tl) =>
      Char.ofNat 123 :: (nlIndent (d + 1)
        ++ (renderStr k ++ ':' :: ' ' :: renderV (d + 1) v)
        ++ renderObj (d + 1) tl ++ nlIndent d ++ [Char.ofNat 125])
  termination_by structural v => v

/-- The remaining items of a non-empty array, each preceded by `,\n` and
indentation. -/
def renderArr (d : Nat) : JArr → List Char
  | .nil => []
  | .cons x xs => ',' :: (nlIndent d ++ renderV d x) ++ renderArr d xs
  termination_by structural a => a

/-- The remaining members of a non-empty object, each preceded by `,\n` and
indentation; a member is `"key": value`. -/
def renderObj (d : Nat) : JObj → List Char
  | .nil => []
  | .cons k v tl =>
      ',' :: (nlIndent d ++ (renderStr k ++ ':' :: ' ' :: renderV d v))
        ++ renderObj d tl
  termination_by structural o => o
end

/-- `json.dumps(v, indent=2)`. -/
def dumps (v : JVal) : List Char :=
  renderV 0 v

/-! ## A JSON reader, modelling `json.load` on the documents the scripts
emit (strings, integers, booleans, arrays, objects; no floats or nulls,
which the scripts never produce). -/

/-- JSON insignificant whitespace. -/
def isWs (c : Char) : Bool :=
  c = ' ' || c = '\t' || c = '\n' || c = '\r'

/-- Drop leading whitespace. -/
def skipWs : List Char → List Char
  | [] => []
  | c :: cs => if isWs c then skipWs cs else c :: cs

/-- Value of one hexadecimal digit. -/
def hexVal (c : Char) : Option Nat :=
  let n := c.toNat
  if 48 ≤ n ∧ n ≤ 57 then some (n - 48)
  else if 97 ≤ n ∧ n ≤ 102 then some (n - 87)
  else if 65 ≤ n ∧ n ≤ 70 then some (n - 55)
  else none

/-- Value of four hexadecimal digits. -/
def hex4Val (a b c d : Char) : Option Nat :=
  match hexVal a, hexVal b, hexVal c, hexVal d with
  | some x, some y, some z, some w => some (4096 * x + 256 * y + 16 * z + w)
  | _, _, _, _ => none

mutual
/-- Read a JSON string body after the opening quote: returns the decoded
characters and the input after the closing quote.  Plain characters are
taken verbatim; a backslash defers to `parseEsc`. -/
def parseStrBody : List Char → Option (List Char × List Char)
  | [] => none
  | c :: cs =>
    if c.toNat = 34 then some ([], cs)
    else if c.toNat = 92 then parseEsc cs
    else (parseStrBody cs).map fun p => (c :: p.1, p.2)
  termination_by structural x => x

/-- Decode one escape sequence after the backslash: the short escapes, or
`\uXXXX` via `parseU`. -/
def parseEsc : List Char → Option (List Char × List Char)
  | [] => none
  | e :: cs2 =>
    if e.toNat = 34 then
      (parseStrBody cs2).map fun p => (Char.ofNat 34 :: p.1, p.2)
    else if e.toNat = 92 then
      (parseStrBody cs2).map fun p => (Char.ofNat 92 :: p.1, p.2)
    else if e = '/' then
      (parseStrBody cs2).map fun p => ('/' :: p.1, p.2)
    else if e = 'b' then
      (parseStrBody cs2).map fun p => (Char.ofNat 8 :: p.1, p.2)
    else if e = 'f' then
      (parseStrBody cs2).map fun p => (Char.ofNat 12 :: p.1, p.2)
    else if e = 'n' then
      (parseStrBody cs2).map fun p => ('\n' :: p.1, p.2)
    else if e = 'r' then
      (parseStrBody cs2).map fun p => (Char.ofNat 13 :: p.1, p.2)
    else if e = 't' then
      (parseStrBody cs2).map fun p => ('\t' :: p.1, p.2)
    else if e = 'u' then parseU cs2
    else none
  termination_by structural x => x

/-- Decode the four hex digits of a `\uXXXX` escape; a high surrogate
defers to `parseLowSur` for its mate, a lone low surrogate is rejected
(the scripts never emit lone surrogates). -/
def parseU : List Char → Option (List Char × List Char)
  | a :: b :: c1 :: d1 :: cs3 =>
    match hex4Val a b c1 d1 with
    | none => none
    | some n =>
      if 55296 ≤ n ∧ n ≤ 56319 then parseLowSur n cs3
      else if 56320 ≤ n ∧ n ≤ 57343 then none
      else (parseStrBody cs3).map fun p => (Char.ofNat n :: p.1, p.2)
  | _ => none
  termination_by structural x => x

/-- Decode the low half `\uXXXX` of a surrogate pair whose high half had
value `n`, reconstructing the astral-plane character. -/
def parseLowSur (n : Nat) : List Char → Option (List Char × List Char)
  | bs :: u :: a2 :: b2 :: c2 :: d2 :: cs4 =>
    if bs.toNat = 92 ∧ u = 'u' then
      match hex4Val a2 b2 c2 d2 with
      | some m =>
        if 56320 ≤ m ∧ m ≤ 57343 then
          (parseStrBody cs4).map fun p =>
            (Char.ofNat (65536 + (n - 55296) * 1024 + (m - 56320)) :: p.1, p.2)
        else none
      | none => none
    else none
  | _ => none
  termination_by structural x => x
end

/-- Split off a maximal run of decimal digits. -/
def takeDigits : List Char → List Char × List Char
  | [] => ([], [])
  | c :: cs =>
    if c.isDigit then
      let p := takeDigits cs
      (c :: p.1, p.2)
    else ([], c :: cs)

/-- Decimal digits to a number, most significant first. -/
def digitsToNat : List Char → Nat → Nat
  | [], acc => acc
  | c :: cs, acc => digitsToNat cs (acc * 10 + (c.toNat - 48))

mutual
/-- Read one JSON value (after optional whitespace); `fuel` bounds the
recursion depth and any `input.length + 1` is enough. -/
def parseV : Nat → List Char → Option (JVal × List Char)
  | 0, _ => none
  | f + 1, cs =>
    match skipWs cs with
    | [] => none
    | c :: rest =>
      if c.toNat = 34 then
        match parseStrBody rest with
        | some (b, r) => some (.str (String.mk b), r)
        | none => none
      else if c = 't' then
        match rest with
        | 'r' :: 'u' :: 'e' :: r => some (.bool true, r)
        | _ => none
      else if c = 'f' then
        match rest with
        | 'a' :: 'l' :: 's' :: 'e' :: r => some (.bool false, r)
        | _ => none
      else if c = '-' then
        match takeDigits rest with
        | ([], _) => none
        | (ds, r) => some (.num (-(digitsToNat ds 0 : Int)), r)
      else if c.isDigit then
        match takeDigits (c :: rest) with
        | (ds, r) => some (.num (digitsToNat ds 0 : Int), r)
      else if c = '[' then
        match skipWs rest with
        | [] => none
        | c2 :: r2 =>
          if c2 = ']' then some (.arr .nil, r2)
          else
            match parseV f rest with
            | some (v, r) =>
              match parseArrRest f r with
              | some (tl, r3) => some (.arr (.cons v tl), r3)
              | none => none
            | none => none
      else if c.toNat = 123 then
        match skipWs rest with
        | [] => none
        | c2 :: r2 =>
          if c2.toNat = 125 then some (.obj .nil, r2)
          else
            match parseMember f rest with
            | some (k, v, r) =>
              match parseObjRest f r with
              | some (tl, r3) => some (.obj (.cons k v tl), r3)
              | none => none
            | none => none
      else none
  termination_by structural f => f

/-- After one array item: `, item ...` or `]`. -/
def parseArrRest : Nat → List Char → Option (JArr × List Char)
  | 0, _ => none
  | f + 1, cs =>
    match skipWs cs with
    | [] => none
    | c :: rest =>
      if c = ',' then
        match parseV f rest with
        | some (v, r) =>
          match parseArrRest f r with
          | some (tl, r2) => some (.cons v tl, r2)
          | none => none
        | none => none
      else if c = ']' then some (.nil, rest)
      else none
  termination_by structural f => f

/-- One `"key": value` object member. -/
def parseMember : Nat → List Char → Option (String × JVal × List Char)
  | 0, _ => none
  | f + 1, cs =>
    match skipWs cs with
    | [] => none
    | c :: rest =>
      if c.toNat = 34 then
        match parseStrBody rest with
        | some (b, r) =>
          match skipWs r with
          | [] => none
          | c2 :: r2 =>
            if c2 = ':' then
              match parseV f r2 with
              | some (v, r3) => some (String.mk b, v, r3)
              | none => none
            else none
        | none => none
      else none
  termination_by structural f => f

/-- After one object member: `, member ...` or the closing brace. -/
def parseObjRest : Nat → List Char → Option (JObj × List Char)
  | 0, _ => none
  | f + 1, cs =>
    match skipWs cs with
    | [] => none
    | c :: rest =>
      if c = ',' then
        match parseMember f rest with
        | some (k, v, r) =>
          match parseObjRest f r with
          | some (tl, r2) => some (.cons k v tl, r2)
          | none => none
        | none => none
      else if c.toNat = 125 then some (.nil, rest)
      else none
  termination_by structural f => f
end

/-- `json.load` on a whole document: one value, then only whitespace. -/
def loads (cs : List Char) : Option JVal :=
  match parseV (cs.length + 1) cs with
  | some (v, r) => if skipWs r = [] then some v else none
  | none => none

/-! ## The filesystem and process model shared by the three scripts.
`FS.writable` models whether the working directory accepts writes; a write
failure is the `OSError` CPython raises from `open(filename, "w")`, which
no script catches. -/

/-- The filesystem visible to a script: a write-permission flag and the
current file contents. -/
structure FS where
  writable : Bool
  files : String → Option String

/-- `open(filename, "w")` followed by a full write: replaces the previous
content of `filename`, or raises if the filesystem rejects writes. -/
def FS.write (fs : FS) (filename content : String) : Except String FS :=
  if fs.writable then
    .ok ⟨fs.writable, fun n => if n = filename then some content else fs.files n⟩
  else
    .error "OSError: [Errno 13] Permission denied"


/-! ## `county_communications_scraper.py` -/

/-- The `CountyOfficialsScraper` object: exactly the fields its
`__init__` assigns. -/
structure CountyOfficialsScraper where
  county : String
  county_location : String
  pw_department : String
  pw_address : String
  officials : JVal

/-- `CountyOfficialsScraper.__init__`. -/
def CountyOfficialsScraper.init : CountyOfficialsScraper where
  county := "Contra Costa County"
  county_location := "Martinez, CA 94553"
  pw_department := "Public Works Department"
  pw_address := "255 Glacier Drive, Martinez, CA 94553"
  officials := JVal.obj (JObj.cons "Jeff Acuff" (JVal.obj (JObj.cons "title" (JVal.str "Division Manager")
         (JObj.cons "department" (JVal.str "Capital Projects Management")
         (JObj.cons "office_phone" (JVal.str "925-655-3130")
         (JObj.cons "mobile" (JVal.str "925-595-6001")
         (JObj.cons "email" (JVal.str "Jeff.Acuff@pw.cccounty.us")
         (JObj.cons "decision_authority" (JVal.str "JOC contract assignments, payment approval")
         (JObj.cons "role_notes" (JVal.str "Primary contact for MVP Construction concerns (2022-2025)")
         (JObj.nil)))))))))
       (JObj.cons "Ramesh Kanzaria" (JVal.obj (JObj.cons "title" (JVal.str "Capital Projects Division Manager")
         (JObj.cons "department" (JVal.str "Capital Projects Management")
         (JObj.cons "entity" (JVal.str "Contra Costa County")
         (JObj.cons "role_notes" (JVal.str "Historical PM for MVP projects, now retired")
         (JObj.nil))))))
       (JObj.cons "Warren Lai" (JVal.obj (JObj.cons "title" (JVal.str "Deputy Public Works Director")
         (JObj.cons "department" (JVal.str "Public Works")
         (JObj.cons "email" (JVal.str "warren.lai@pw.cccounty.us")
         (JObj.cons "entity" (JVal.str "Contra Costa County")
         (JObj.nil))))))
       (JObj.cons "Brendan Havenar-Daughton" (JVal.obj (JObj.cons "title" (JVal.str "Energy Manager")
         (JObj.cons "department" (JVal.str "Capital Projects Management")
         (JObj.cons "office_phone" (JVal.str "925-957-2473")
         (JObj.cons "mobile" (JVal.str "925-812-7703")
         (JObj.cons "email" (JVal.str "Brendan.Havenar-Daughton@pw.cccounty.us")
         (JObj.cons "role_notes" (JVal.str "30 Muir Road project manager, reconciliation lead")
         (JObj.nil))))))))
       (JObj.cons "Mauricio Moreno" (JVal.obj (JObj.cons "title" (JVal.str "Project Manager/Consultant")
         (JObj.cons "department" (JVal.str "Capital Projects Management")
         (JObj.cons "email" (JVal.str "Mauricio.Moreno@pw.cccounty.us")
         (JObj.cons "role_notes" (JVal.str "30 Muir project, reconciliation disputed party")
         (JObj.nil))))))
       (JObj.cons "George Stavros" (JVal.obj (JObj.cons "title" (JVal.str "Consultant")
         (JObj.cons "company" (JVal.str "Gordian")
         (JObj.cons "email" (JVal.str "G.Stavros@gordian.com")
         (JObj.cons "role_notes" (JVal.str "JOC program consultant, contractor evaluation specialist")
         (JObj.nil))))))
       (JObj.nil)))))))

/-- `scrape_communication_records`: builds and returns the literal
`records` dict; reads and writes no object fields. -/
def CountyOfficialsScraper.scrape_communication_records
    (self : CountyOfficialsScraper) : CountyOfficialsScraper × JVal :=
  let records : JVal := JVal.obj (JObj.cons "communication_thread_1" (JVal.obj (JObj.cons "subject" (JVal.str "JOC 012, 013, 014, 015 & 016 / JOC 017, 018, 019, 020")
         (JObj.cons "date_initiated" (JVal.str "2022-01-28")
         (JObj.cons "initiator" (JVal.str "Mike Vila, MVP Construction")
         (JObj.cons "recipient" (JVal.str "admin@pw.cccounty.us")
         (JObj.cons "cc" (JVal.arr (JArr.cons (JVal.str "warren.lai@pw.cccounty.us")
           (JArr.nil)))
         (JObj.cons "key_points" (JVal.arr (JArr.cons (JVal.str "MVP alleges unequal work distribution")
           (JArr.cons (JVal.str "Two contractors (Aztec, Mark Scott) heavily favored")
           (JArr.cons (JVal.str "MVP received only 2 RFPs in first JOC")
           (JArr.cons (JVal.str "MVP revenue: $250k, bonding costs: $30k")
           (JArr.cons (JVal.str "County\x27s minimum obligation met, equity not addressed")
           (JArr.cons (JVal.str "Public Records Request filed")
           (JArr.nil))))))))
         (JObj.cons "status" (JVal.str "Acknowledged by County, no resolution")
         (JObj.nil)))))))))
       (JObj.cons "communication_thread_2" (JVal.obj (JObj.cons "subject" (JVal.str "Contract Timeline and RFP Opportunities \u2013 JOC 025")
         (JObj.cons "date_initiated" (JVal.str "2025-01-27")
         (JObj.cons "initiator" (JVal.str "Mike Vila, MVP Construction")
         (JObj.cons "recipient" (JVal.str "Jeff Acuff")
         (JObj.cons "key_points" (JVal.arr (JArr.cons (JVal.str "JOC-025 contract dates confirmed: 2024-07-29 to 2025-10-26")
           (JArr.cons (JVal.str "MVP concerns about equitable work distribution continue")
           (JArr.cons (JVal.str "Aztec and Mark Scott again dominating contract awards")
           (JArr.cons (JVal.str "Aztec contract doubled: $2.5M to $5M")
           (JArr.cons (JVal.str "MVP never completed 50% of awarded contract value")
           (JArr.cons (JVal.str "Equity under California Public Contract Code questioned")
           (JArr.nil))))))))
         (JObj.cons "official_response" (JVal.str "County evaluates \x27best fit\x27 based on prior performance")
         (JObj.cons "resolution" (JVal.str "Pending - pattern continues 3 years later")
         (JObj.nil)))))))))
       (JObj.cons "communication_thread_3" (JVal.obj (JObj.cons "subject" (JVal.str "Reconciliation Next Steps - 30 Muir Road Project")
         (JObj.cons "date_initiated" (JVal.str "2024-02-01")
         (JObj.cons "parties" (JVal.arr (JArr.cons (JVal.str "Mike Vila")
           (JArr.cons (JVal.str "Brendan Havenar-Daughton")
           (JArr.cons (JVal.str "Jeff Acuff")
           (JArr.cons (JVal.str "Mauricio Moreno")
           (JArr.nil))))))
         (JObj.cons "duration" (JVal.str "2 months (Dec 2023 - Feb 2024)")
         (JObj.cons "key_issues" (JVal.arr (JArr.cons (JVal.str "Scope dispute on 30 Muir Road project")
           (JArr.cons (JVal.str "Delayed feedback and payment processing")
           (JArr.cons (JVal.str "County consultant (George) involvement disputed")
           (JArr.cons (JVal.str "Subcontractor relationships strained due to County PM behavior")
           (JArr.cons (JVal.str "Payment reconciliation stuck since December 2023")
           (JArr.cons (JVal.str "Mike Vila requests direct intervention from Jeff Acuff")
           (JArr.nil))))))))
         (JObj.cons "disputed_amount_estimated" (JVal.str "$40,000+")
         (JObj.cons "key_quote_county" (JVal.str "\x27Reconciliation is not intended to pay for corrective work\x27")
         (JObj.cons "resolution_status" (JVal.str "Unresolved as of communication date")
         (JObj.nil))))))))))
       (JObj.cons "communication_thread_4" (JVal.obj (JObj.cons "subject" (JVal.str "Invoice Payment and California Prompt Payment Act Compliance")
         (JObj.cons "date_initiated" (JVal.str "2024-01-16")
         (JObj.cons "initiator" (JVal.str "Mike Vila")
         (JObj.cons "recipient" (JVal.arr (JArr.cons (JVal.str "Jeff Acuff")
           (JArr.cons (JVal.str "Susan Lindstrom")
           (JArr.nil))))
         (JObj.cons "disputed_invoices" (JVal.arr (JArr.cons (JVal.str "Invoice #023-007-004")
           (JArr.cons (JVal.str "Invoice #023-007-006")
           (JArr.cons (JVal.str "Invoice #023-007-007")
           (JArr.nil)))))
         (JObj.cons "legal_basis" (JVal.str "California Civil Code Section 8800 et seq. (Prompt Payment Act)")
         (JObj.cons "key_points" (JVal.arr (JArr.cons (JVal.str "30-day payment requirement violated")
           (JArr.cons (JVal.str "Interest accrual at 2% per month on unpaid balance")
           (JArr.cons (JVal.str "County acknowledges Public Contract Code 20104.50 obligations")
           (JArr.cons (JVal.str "Payment eventually processed with interest accrual")
           (JArr.cons (JVal.str "Pattern of late payments documented")
           (JArr.nil)))))))
         (JObj.cons "county_action" (JVal.str "Submitted interest payment request to Auditor\x27s Office (July 2024)")
         (JObj.cons "resolution" (JVal.str "Partial - interest calculated and processed")
         (JObj.nil)))))))))))
       (JObj.nil)))))
  (self, records)

/-- `extract_contract_identifiers`: the literal `identifiers` dict. -/
def CountyOfficialsScraper.extract_contract_identifiers
    (self : CountyOfficialsScraper) : CountyOfficialsScraper × JVal :=
  let identifiers : JVal := JVal.obj (JObj.cons "joc_contracts" (JVal.obj (JObj.cons "joc_012_016" (JVal.obj (JObj.cons "status" (JVal.str "Historical")
           (JObj.cons "mvc_performance" (JVal.str "$250k revenue, negative ROI")
           (JObj.nil))))
         (JObj.cons "joc_017_020" (JVal.obj (JObj.cons "status" (JVal.str "Historical")
           (JObj.cons "mvc_performance" (JVal.str "$0 revenue")
           (JObj.cons "other_contractors" (JVal.obj (JObj.cons "Mark Scott Construction" (JVal.str "$1,879,526.93")
             (JObj.cons "Aztec Consultants" (JVal.str "$2,238,389.05")
             (JObj.cons "MIK Construction" (JVal.str "$318,702.15")
             (JObj.nil)))))
           (JObj.nil)))))
         (JObj.cons "joc_022" (JVal.obj (JObj.cons "status" (JVal.str "Historical")
           (JObj.cons "mvc_performance" (JVal.str "Unknown revenue")
           (JObj.nil))))
         (JObj.cons "joc_025" (JVal.obj (JObj.cons "status" (JVal.str "Current")
           (JObj.cons "start_date" (JVal.str "2024-07-29")
           (JObj.cons "end_date" (JVal.str "2025-10-26")
           (JObj.cons "mvc_status" (JVal.str "Awarded, low initial RFP activity")
           (JObj.nil))))))
         (JObj.nil))))))
       (JObj.cons "specific_projects" (JVal.obj (JObj.cons "30_muir_road" (JVal.obj (JObj.cons "location" (JVal.str "30 Muir Road, Martinez, CA")
           (JObj.cons "project_type" (JVal.str "County facility")
           (JObj.cons "contractor" (JVal.str "MVP Construction")
           (JObj.cons "dispute_period" (JVal.str "Dec 2023 - Feb 2024+")
           (JObj.cons "key_personnel" (JVal.str "Mike Vila (owner), Brendan Havenar-Daughton (PM)")
           (JObj.cons "status" (JVal.str "Reconciliation dispute ongoing")
           (JObj.nil))))))))
         (JObj.nil)))
       (JObj.cons "financial_identifiers" (JVal.obj (JObj.cons "taxpayer_id_aztec" (JVal.str "68-0262823")
         (JObj.cons "wbe_license_mvc" (JVal.str "1047890")
         (JObj.cons "mvc_business_license" (JVal.str "MVP Construction LLC")
         (JObj.nil)))))
       (JObj.nil))))
  (self, identifiers)

/-- `scrape_public_records_data`: the literal `public_data` dict. -/
def CountyOfficialsScraper.scrape_public_records_data
    (self : CountyOfficialsScraper) : CountyOfficialsScraper × JVal :=
  let public_data : JVal := JVal.obj (JObj.cons "job_order_tracking_reports" (JVal.obj (JObj.cons "report_date" (JVal.str "2022-12-09")
         (JObj.cons "source" (JVal.str "Contra Costa County Public Works")
         (JObj.cons "joc_017_mark_scott" (JVal.obj (JObj.cons "total_issued" (JVal.str "$1,879,526.93")
           (JObj.cons "sample_projects" (JVal.arr (JArr.cons (JVal.obj (JObj.cons "jo_id" (JVal.str "J17-02-250-22009-W")
               (JObj.cons "title" (JVal.str "Lab Building Parking Lot Modification")
               (JObj.cons "amount" (JVal.str "$313,519.21")
               (JObj.nil)))))
             (JArr.cons (JVal.obj (JObj.cons "jo_id" (JVal.str "J17-03-250-2013-WH")
               (JObj.cons "title" (JVal.str "10 Douglas Drive FLIP Generator")
               (JObj.cons "amount" (JVal.str "$615,197.56")
               (JObj.nil)))))
             (JArr.cons (JVal.obj (JObj.cons "jo_id" (JVal.str "J17-04-250-1803-WH")
               (JObj.cons "title" (JVal.str "CCRMC Pharmacy Compounding Room Upgrade")
               (JObj.cons "amount" (JVal.str "$113,422.53")
               (JObj.nil)))))
             (JArr.nil)))))
           (JObj.nil))))
         (JObj.cons "joc_018_aztec" (JVal.obj (JObj.cons "total_issued" (JVal.str "$2,238,389.05")
           (JObj.cons "sample_projects" (JVal.arr (JArr.cons (JVal.obj (JObj.cons "jo_id" (JVal.str "J18-01-345-2101-WH")
               (JObj.cons "title" (JVal.str "Pittsburg Health Center Cooling Tower Replacement")
               (JObj.cons "amount" (JVal.str "$988,469.46")
               (JObj.nil)))))
             (JArr.cons (JVal.obj (JObj.cons "jo_id" (JVal.str "J18-02-250-22010-W")
               (JObj.cons "title" (JVal.str "CCRMC Parking Lot Repair-Seal Coat")
               (JObj.cons "amount" (JVal.str "$444,459.45")
               (JObj.nil)))))
             (JArr.cons (JVal.obj (JObj.cons "jo_id" (JVal.str "J18-03-WON:6643271-WH")
               (JObj.cons "title" (JVal.str "WCDF Walk-In Refrigerator & Freezer Replacement")
               (JObj.cons "amount" (JVal.str "$763,687.94")
               (JObj.nil)))))
             (JArr.nil)))))
           (JObj.nil))))
         (JObj.cons "joc_020_mvp_construction" (JVal.obj (JObj.cons "total_issued" (JVal.str "$0.00")
           (JObj.cons "note" (JVal.str "Proposal Review stage, no completed work")
           (JObj.nil))))
         (JObj.nil)))))))
       (JObj.nil))
  (self, public_data)

/-- `generate_complete_report`: composes the report dict, with
`datetime.now().isoformat()` passed in as `now`.  The three helper calls
are threaded in source order; none of them changes the object. -/
def CountyOfficialsScraper.generate_complete_report
    (self : CountyOfficialsScraper) (now : String) :
    CountyOfficialsScraper × JVal :=
  let (self1, scrape_communication_records) :=
    CountyOfficialsScraper.scrape_communication_records self
  let (self2, extract_contract_identifiers) :=
    CountyOfficialsScraper.extract_contract_identifiers self1
  let (self3, scrape_public_records_data) :=
    CountyOfficialsScraper.scrape_public_records_data self2
  let report : JVal := JVal.obj (JObj.cons "title" (JVal.str "Contra Costa County Communications & Contracts Data Extract")
       (JObj.cons "date_generated" (JVal.str now)
       (JObj.cons "data_sources" (JVal.arr (JArr.cons (JVal.str "Email communications (Jan 2022 - Jan 2025)")
         (JArr.cons (JVal.str "Job Order Tracking Reports")
         (JArr.cons (JVal.str "Public Records Requests")
         (JArr.cons (JVal.str "County official contact directories")
         (JArr.nil))))))
       (JObj.cons "extracted_data" (JVal.obj (JObj.cons "officials" (self.officials)
         (JObj.cons "communications" (scrape_communication_records)
         (JObj.cons "contracts" (extract_contract_identifiers)
         (JObj.cons "public_records" (scrape_public_records_data)
         (JObj.nil))))))
       (JObj.cons "analysis_notes" (JVal.arr (JArr.cons (JVal.str "Pattern of inequitable work distribution documented")
         (JArr.cons (JVal.str "Two contractors (Aztec, Mark Scott) receive ~90% of work")
         (JArr.cons (JVal.str "MVP concerns raised consistently over 3+ years")
         (JArr.cons (JVal.str "Payment disputes indicate cash flow impact on contractor")
         (JArr.cons (JVal.str "30 Muir Road reconciliation represents current dispute focus")
         (JArr.nil)))))))
       (JObj.nil))))))
  (self3, report)

/-- `save_report`: `json.dump(report, f, indent=2)` to `filename`
(default `county_communications_extract.json`), returning `filename`. -/
def CountyOfficialsScraper.save_report (self : CountyOfficialsScraper)
    (report : JVal) (fs : FS)
    (filename : String := "county_communications_extract.json") :
    Except String (CountyOfficialsScraper × String × FS) :=
  (fs.write filename (String.mk (dumps report))).map fun fs2 =>
    (self, filename, fs2)

/-- The script entry point (`__main__`): construct, generate, save, print.
Returns the final filesystem and the text printed to stdout. -/
def county_main (now : String) (fs : FS) : Except String (FS × String) :=
  let scraper := CountyOfficialsScraper.init
  let (scraper1, report) := scraper.generate_complete_report now
  match scraper1.save_report report fs with
  | .ok (_, _, fs2) => .ok (fs2, String.mk (dumps report ++ ['\n']))
  | .error e => .error e

/-! ## `legal_documents_scraper.py` -/

/-- The `LegalDocumentsScraper` object: exactly the fields its
`__init__` assigns. -/
structure LegalDocumentsScraper where
  jurisdiction : String
  contract_type : String
  legal_framework : JVal

/-- `LegalDocumentsScraper.__init__`. -/
def LegalDocumentsScraper.init : LegalDocumentsScraper where
  jurisdiction := "Contra Costa County, California"
  contract_type := "Job Order Contract (JOC)"
  legal_framework := JVal.arr (JArr.cons (JVal.str "California Public Contract Code")
       (JArr.cons (JVal.str "California Civil Code (Prompt Payment Act)")
       (JArr.cons (JVal.str "Federal Labor Code")
       (JArr.cons (JVal.str "Government Code")
       (JArr.nil)))))

/-- `extract_aztec_contract_terms`: the literal `contract` dict. -/
def LegalDocumentsScraper.extract_aztec_contract_terms
    (self : LegalDocumentsScraper) : LegalDocumentsScraper × JVal :=
  let contract : JVal := JVal.obj (JObj.cons "form" (JVal.str "CC-1 (Contra Costa County Standard Form)")
       (JObj.cons "form_approval" (JVal.str "Rev. 2-07")
       (JObj.cons "parties" (JVal.obj (JObj.cons "public_agency" (JVal.str "CONTRA COSTA COUNTY")
         (JObj.cons "contractor" (JVal.str "Aztec Consultants, Inc.")
         (JObj.cons "contractor_address" (JVal.str "2021 Omega Road, Ste 200, San Ramon, CA 94583")
         (JObj.nil)))))
       (JObj.cons "contract_number" (JVal.str "000-1901")
       (JObj.cons "joc_designation" (JVal.str "JOB ORDER CONTRACT - 018")
       (JObj.cons "authorization_number" (JVal.str "WW1006")
       (JObj.cons "effective_date" (JVal.str "November 2, 2021")
       (JObj.cons "contract_type" (JVal.str "Construction Agreement - Job Order Contract")
       (JObj.cons "key_terms" (JVal.obj (JObj.cons "maximum_value" (JVal.str "$3,000,000.00")
         (JObj.cons "minimum_value" (JVal.str "$25,000.00")
         (JObj.cons "contract_duration" (JVal.str "1 year (365 days) or maximum contract value, whichever comes first")
         (JObj.cons "notice_to_proceed" (JVal.str "Required for each individual Job Order")
         (JObj.cons "federal_tax_id" (JVal.str "68-0262823")
         (JObj.nil)))))))
       (JObj.cons "county_contacts" (JVal.obj (JObj.cons "public_agency_agent" (JVal.str "Warren Lai, Deputy Public Works Director")
         (JObj.cons "capital_projects_manager" (JVal.str "Ramesh Kanzaria, Capital Projects Division Manager")
         (JObj.nil))))
       (JObj.cons "payment_terms" (JVal.obj (JObj.cons "frequency" (JVal.str "1st of each calendar month")
         (JObj.cons "payment_basis" (JVal.str "Work completed through 15th of preceding month")
         (JObj.cons "retention" (JVal.str "5% per Public Contract Code Section 9203")
         (JObj.cons "final_payment" (JVal.str "35 calendar days after completion notice")
         (JObj.nil))))))
       (JObj.cons "insurance_requirements" (JVal.obj (JObj.cons "basis" (JVal.str "Labor Code Sections 1860-61")
         (JObj.cons "requirement" (JVal.str "Workers\x27 Compensation insurance")
         (JObj.cons "labor_code_compliance" (JVal.str "Section 3700")
         (JObj.nil)))))
       (JObj.cons "wage_requirements" (JVal.obj (JObj.cons "basis" (JVal.str "Labor Code Section 1773")
         (JObj.cons "requirement" (JVal.str "Prevailing wage rates per Department of Industrial Relations")
         (JObj.cons "daily_work" (JVal.str "8 hours constitutes legal day")
         (JObj.cons "overtime_compliance" (JVal.str "Labor Code Sections 1810-1815")
         (JObj.nil))))))
       (JObj.cons "important_sections" (JVal.obj (JObj.cons "section_6_payment" (JVal.str "County pays for strict performance as determined by Public Agency")
         (JObj.cons "section_7_withholding" (JVal.str "County may withhold payment for defective work or claims")
         (JObj.cons "section_11_laws" (JVal.str "Labor Code Sections 1775, 1813 (prevailing wages), 1776 (payroll records)")
         (JObj.cons "section_20_venue" (JVal.str "Litigation venue: Contra Costa County (contractor waives removal)")
         (JObj.cons "section_22_record_retention" (JVal.str "5-year record retention requirement")
         (JObj.nil)))))))
       (JObj.cons "liquidated_damages" (JVal.obj (JObj.cons "applicability" (JVal.str "If contractor fails to complete within time fixed")
         (JObj.cons "schedule_example" (JVal.obj (JObj.cons "1_to_25k" (JVal.str "$235/day")
           (JObj.cons "25k_to_100k" (JVal.str "$325/day")
           (JObj.cons "100k_to_250k" (JVal.str "$410/day")
           (JObj.cons "250k_to_500k" (JVal.str "$525/day")
           (JObj.cons "500k_to_1m" (JVal.str "$750/day")
           (JObj.nil)))))))
         (JObj.nil))))
       (JObj.nil))))))))))))))))
  (self, contract)

/-- `extract_payment_law_compliance`: the literal `payment_law` dict. -/
def LegalDocumentsScraper.extract_payment_law_compliance
    (self : LegalDocumentsScraper) : LegalDocumentsScraper × JVal :=
  let payment_law : JVal := JVal.obj (JObj.cons "statute" (JVal.str "California Civil Code Section 8800 et seq. (Prompt Payment Act)")
       (JObj.cons "applicability" (JVal.str "Public entity construction contracts")
       (JObj.cons "key_sections" (JVal.obj (JObj.cons "8800" (JVal.str "General Prompt Payment requirements")
         (JObj.cons "8812" (JVal.obj (JObj.cons "title" (JVal.str "Payment by Public Entities")
           (JObj.cons "requirement" (JVal.str "Payment within 30 days of receiving demand")
           (JObj.cons "exceptions" (JVal.str "As otherwise agreed in writing")
           (JObj.cons "applicability" (JVal.str "Original contractor progress billings")
           (JObj.nil))))))
         (JObj.cons "8814" (JVal.obj (JObj.cons "title" (JVal.str "Dispute Withholding")
           (JObj.cons "requirement" (JVal.str "Public entity may withhold no more than 150% of disputed amount")
           (JObj.cons "principle" (JVal.str "Undisputed work must be paid timely")
           (JObj.nil)))))
         (JObj.cons "8818" (JVal.obj (JObj.cons "title" (JVal.str "Interest Penalty")
           (JObj.cons "interest_rate" (JVal.str "2% per month on unpaid balance")
           (JObj.cons "trigger" (JVal.str "Payment not made within Section 8812 timeframe")
           (JObj.cons "applicability" (JVal.str "All overdue undisputed amounts")
           (JObj.nil))))))
         (JObj.cons "20104.50" (JVal.obj (JObj.cons "statute" (JVal.str "Public Contract Code Section 20104.50")
           (JObj.cons "title" (JVal.str "Payment Timelines for JOC Contracts")
           (JObj.cons "applicability" (JVal.str "Specific to Job Order Contracts")
           (JObj.cons "referenced_in" (JVal.str "County correspondence to MVP (June 2024)")
           (JObj.nil))))))
         (JObj.nil)))))))
       (JObj.cons "mvc_application" (JVal.obj (JObj.cons "invoices_disputed" (JVal.arr (JArr.cons (JVal.str "023-007-004")
           (JArr.cons (JVal.str "023-007-006")
           (JArr.cons (JVal.str "023-007-007")
           (JArr.nil)))))
         (JObj.cons "legal_basis_cited" (JVal.str "California Prompt Payment Act, Sections 8800-8818")
         (JObj.cons "county_acknowledgment" (JVal.str "County agreed to audit payment timelines (June 26, 2024)")
         (JObj.cons "county_action" (JVal.str "Submitted interest payment request to Auditor\x27s Office (July 17, 2024)")
         (JObj.cons "result" (JVal.str "Interest calculated and processed per Section 8818")
         (JObj.nil)))))))
       (JObj.nil)))))
  (self, payment_law)

/-- `extract_contract_code_requirements`: the literal `pcc_requirements`
dict. -/
def LegalDocumentsScraper.extract_contract_code_requirements
    (self : LegalDocumentsScraper) : LegalDocumentsScraper × JVal :=
  let pcc_requirements : JVal := JVal.obj (JObj.cons "fair_distribution" (JVal.obj (JObj.cons "principle" (JVal.str "Public agencies must ensure equitable work distribution")
         (JObj.cons "sections" (JVal.arr (JArr.cons (JVal.str "4100-4114")
           (JArr.cons (JVal.str "20104.50")
           (JArr.nil))))
         (JObj.cons "transparency_requirement" (JVal.str "Work must be distributed fairly among qualified contractors")
         (JObj.cons "mvc_concern" (JVal.str "Same 2 contractors receiving 90%+ of work across multiple JOC cycles")
         (JObj.nil))))))
       (JObj.cons "minimum_obligation" (JVal.obj (JObj.cons "interpretation_county" (JVal.str "County has minimum obligation only")
         (JObj.cons "mvc_argument" (JVal.str "Fairness and transparency require equitable distribution")
         (JObj.cons "legal_standard" (JVal.str "California Public Contract Code principles")
         (JObj.nil)))))
       (JObj.cons "subcontractor_sections" (JVal.str "Sections 4100-4114 incorporated by reference")
       (JObj.cons "wage_compliance" (JVal.str "Department of Industrial Relations prevailing wage certification")
       (JObj.cons "venue_provision" (JVal.str "Work shall be performed in Contra Costa County")
       (JObj.nil))))))
  (self, pcc_requirements)

/-- `extract_disputed_projects`: the literal `disputed` dict. -/
def LegalDocumentsScraper.extract_disputed_projects
    (self : LegalDocumentsScraper) : LegalDocumentsScraper × JVal :=
  let disputed : JVal := JVal.obj (JObj.cons "30_muir_road_project" (JVal.obj (JObj.cons "location" (JVal.str "30 Muir Road, Martinez, CA 94553")
         (JObj.cons "owner" (JVal.str "Contra Costa County")
         (JObj.cons "contractor" (JVal.str "M V P Construction LLC")
         (JObj.cons "project_manager" (JVal.str "Brendan Havenar-Daughton (Energy Manager)")
         (JObj.cons "dispute_type" (JVal.str "Scope reconciliation")
         (JObj.cons "dispute_duration" (JVal.obj (JObj.cons "start" (JVal.str "December 2023")
           (JObj.cons "current" (JVal.str "February 2024+")
           (JObj.cons "duration_months" (JVal.str "2+ months")
           (JObj.nil)))))
         (JObj.cons "dispute_parties" (JVal.obj (JObj.cons "mvc" (JVal.str "Mike Vila, Owner")
           (JObj.cons "county_pm" (JVal.str "Brendan Havenar-Daughton")
           (JObj.cons "county_management" (JVal.arr (JArr.cons (JVal.str "Mauricio Moreno")
             (JArr.cons (JVal.str "Jeff Acuff")
             (JArr.nil))))
           (JObj.cons "county_consultant" (JVal.str "George Stavros (Gordian)")
           (JObj.nil))))))
         (JObj.cons "key_issues" (JVal.arr (JArr.cons (JVal.str "Scope of work interpretation")
           (JArr.cons (JVal.str "Measured quantities vs. contracted quantities")
           (JArr.cons (JVal.str "Additional work performed")
           (JArr.cons (JVal.str "Reconciliation calculation methodology")
           (JArr.nil))))))
         (JObj.cons "disputed_amounts" (JVal.str "Estimated $40,000+ (from correspondence)")
         (JObj.cons "supporting_documentation" (JVal.arr (JArr.cons (JVal.str "Hard copies of work order receipts")
           (JArr.cons (JVal.str "Supplier invoices")
           (JArr.cons (JVal.str "Concrete truck documentation")
           (JArr.cons (JVal.str "Supplemental cost documentation")
           (JArr.nil))))))
         (JObj.cons "mvc_position" (JVal.str "Reconciliation should be \x27cut both ways\x27 (credits and debits)")
         (JObj.cons "county_position" (JVal.str "Reconciliation only adjusts for scope variation, not corrective work")
         (JObj.cons "impact" (JVal.obj (JObj.cons "financial_strain" (JVal.str "MVP covering costs upfront")
           (JObj.cons "subcontractor_impact" (JVal.str "Contractors refusing additional County work")
           (JObj.cons "business_reputation" (JVal.str "Damage to MVP relationships and bidding position")
           (JObj.nil)))))
         (JObj.nil)))))))))))))))
       (JObj.nil))
  (self, disputed)

/-- `extract_ens_legis_framework`: the literal `ens_legis` dict. -/
def LegalDocumentsScraper.extract_ens_legis_framework
    (self : LegalDocumentsScraper) : LegalDocumentsScraper × JVal :=
  let ens_legis : JVal := JVal.obj (JObj.cons "concept" (JVal.str "Ens Legis (creature of the law)")
       (JObj.cons "definition" (JVal.str "Artificial being created by law, contrasted with natural person")
       (JObj.cons "application" (JVal.str "Digital persona/AI clone as authorized representative")
       (JObj.cons "legal_basis" (JVal.obj (JObj.cons "persona_ficta" (JVal.str "Juridical/artificial person")
         (JObj.cons "characteristics" (JVal.arr (JArr.cons (JVal.str "Legal rights, protections, privileges & liabilities")
           (JArr.cons (JVal.str "Can sue, be sued, enter contracts, own property")
           (JArr.cons (JVal.str "Exists solely because law creates/recognizes it")
           (JArr.nil)))))
         (JObj.nil))))
       (JObj.cons "digital_clone_designation" (JVal.str "Campaign Coordinator - Incrimination Nation")
       (JObj.cons "authorized_operations" (JVal.arr (JArr.cons (JVal.str "Legal Document Management & Assembly")
         (JArr.cons (JVal.str "Campaign Content Creation & Distribution")
         (JArr.cons (JVal.str "Platform Integration & Automation")
         (JArr.cons (JVal.str "Bot Development & Data Scraping Oversight")
         (JArr.nil))))))
       (JObj.cons "framework_file" (JVal.str "Untitled dENS LEGIS FICTITIOUS PERSON - Digital Clone Framework")
       (JObj.cons "created_date" (JVal.str "January 10, 2026")
       (JObj.nil)))))))))
  (self, ens_legis)

/-- `generate_legal_analysis_report`, with `datetime.now().isoformat()`
passed in as `now`; the five extract calls are threaded in source order. -/
def LegalDocumentsScraper.generate_legal_analysis_report
    (self : LegalDocumentsScraper) (now : String) :
    LegalDocumentsScraper × JVal :=
  let (self1, extract_aztec_contract_terms) :=
    LegalDocumentsScraper.extract_aztec_contract_terms self
  let (self2, extract_payment_law_compliance) :=
    LegalDocumentsScraper.extract_payment_law_compliance self1
  let (self3, extract_contract_code_requirements) :=
    LegalDocumentsScraper.extract_contract_code_requirements self2
  let (self4, extract_disputed_projects) :=
    LegalDocumentsScraper.extract_disputed_projects self3
  let (self5, extract_ens_legis_framework) :=
    LegalDocumentsScraper.extract_ens_legis_framework self4
  let report : JVal := JVal.obj (JObj.cons "title" (JVal.str "Legal Documentation Analysis - MVP Construction vs. Contra Costa County")
       (JObj.cons "date_generated" (JVal.str now)
       (JObj.cons "jurisdiction" (JVal.str "Contra Costa County, California")
       (JObj.cons "case_focus" (JVal.arr (JArr.cons (JVal.str "JOC contract work distribution equity")
         (JArr.cons (JVal.str "Payment law compliance")
         (JArr.cons (JVal.str "30 Muir Road project reconciliation")
         (JArr.nil)))))
       (JObj.cons "extracted_contracts" (JVal.obj (JObj.cons "aztec_joc_018" (extract_aztec_contract_terms)
         (JObj.nil)))
       (JObj.cons "legal_requirements" (JVal.obj (JObj.cons "payment_law" (extract_payment_law_compliance)
         (JObj.cons "contract_code" (extract_contract_code_requirements)
         (JObj.nil))))
       (JObj.cons "disputed_matters" (extract_disputed_projects)
       (JObj.cons "legal_framework" (extract_ens_legis_framework)
       (JObj.cons "analysis_summary" (JVal.obj (JObj.cons "payment_law_violations" (JVal.str "County acknowledged late payments, interest processed per Code 8818")
         (JObj.cons "contract_equity_issues" (JVal.str "3-year pattern of inequitable work distribution documented")
         (JObj.cons "30_muir_dispute" (JVal.str "Ongoing scope reconciliation with $40k+ in dispute")
         (JObj.cons "legal_remedies_available" (JVal.arr (JArr.cons (JVal.str "Payment disputes resolved under Prompt Payment Act")
           (JArr.cons (JVal.str "Public Contract Code equity arguments supported by 3-year record")
           (JArr.cons (JVal.str "30 Muir reconciliation may require mediation or litigation")
           (JArr.nil)))))
         (JObj.nil))))))
       (JObj.nil))))))))))
  (self5, report)

/-- `save_report`: JSON dump to `filename`
(default `legal_analysis_extract.json`), returning `filename`. -/
def LegalDocumentsScraper.save_report (self : LegalDocumentsScraper)
    (report : JVal) (fs : FS)
    (filename : String := "legal_analysis_extract.json") :
    Except String (LegalDocumentsScraper × String × FS) :=
  (fs.write filename (String.mk (dumps report))).map fun fs2 =>
    (self, filename, fs2)

/-- The script entry point (`__main__`). -/
def legal_main (now : String) (fs : FS) : Except String (FS × String) :=
  let scraper := LegalDocumentsScraper.init
  let (scraper1, report) := scraper.generate_legal_analysis_report now
  match scraper1.save_report report fs with
  | .ok (_, _, fs2) => .ok (fs2, String.mk (dumps report ++ ['\n']))
  | .error e => .error e


/-! ## `mvc_joc_tracker.py` -/

/-- The `MVPContractorTracker` object: exactly the fields its
`__init__` assigns. -/
structure MVPContractorTracker where
  company_name : String
  wbe_license : String
  contact_email : String
  phone : String
  location : String
  active_contracts : JVal
  historical_contracts : JVal
  competitors : JVal
  county_contacts : JVal

/-- `MVPContractorTracker.__init__`. -/
def MVPContractorTracker.init : MVPContractorTracker where
  company_name := "M V P Construction LLC"
  wbe_license := "1047890"
  contact_email := "mike@mvpcllc.com"
  phone := "925.586.1478"
  location := "Pacheco, CA 94553"
  active_contracts := JVal.obj (JObj.cons "JOC-025" (JVal.obj (JObj.cons "start_date" (JVal.str "2024-07-29")
         (JObj.cons "end_date" (JVal.str "2025-10-26")
         (JObj.cons "status" (JVal.str "active")
         (JObj.cons "awarded_value" (JVal.str "Unknown (pending bid awards)")
         (JObj.nil))))))
       (JObj.nil))
  historical_contracts := JVal.obj (JObj.cons "JOC-012" (JVal.obj (JObj.cons "completed" (JVal.bool true)
         (JObj.cons "revenue" (JVal.num 250000)
         (JObj.cons "bonding_cost" (JVal.num 30000)
         (JObj.nil)))))
       (JObj.cons "JOC-017" (JVal.obj (JObj.cons "completed" (JVal.bool true)
         (JObj.cons "revenue" (JVal.num 0)
         (JObj.cons "bonding_cost" (JVal.num 15000)
         (JObj.nil)))))
       (JObj.cons "JOC-018" (JVal.obj (JObj.cons "completed" (JVal.bool true)
         (JObj.cons "revenue" (JVal.num 0)
         (JObj.cons "bonding_cost" (JVal.num 15000)
         (JObj.nil)))))
       (JObj.cons "JOC-019" (JVal.obj (JObj.cons "completed" (JVal.bool true)
         (JObj.cons "revenue" (JVal.num 0)
         (JObj.cons "bonding_cost" (JVal.num 15000)
         (JObj.nil)))))
       (JObj.cons "JOC-020" (JVal.obj (JObj.cons "completed" (JVal.bool true)
         (JObj.cons "revenue" (JVal.num 0)
         (JObj.cons "bonding_cost" (JVal.num 15000)
         (JObj.nil)))))
       (JObj.cons "JOC-022" (JVal.obj (JObj.cons "completed" (JVal.bool true)
         (JObj.cons "revenue" (JVal.str "Unknown")
         (JObj.cons "bonding_cost" (JVal.num 30000)
         (JObj.nil)))))
       (JObj.cons "JOC-025" (JVal.obj (JObj.cons "status" (JVal.str "active")
         (JObj.cons "bonding_cost" (JVal.num 30000)
         (JObj.nil))))
       (JObj.nil))))))))
  competitors := JVal.obj (JObj.cons "Aztec Consultants Inc." (JVal.obj (JObj.cons "contracts" (JVal.arr (JArr.cons (JVal.str "JOC-018")
           (JArr.nil)))
         (JObj.cons "addresses" (JVal.arr (JArr.cons (JVal.str "2021 Omega Road, Ste 200, San Ramon, CA 94583")
           (JArr.nil)))
         (JObj.cons "fed_tax_id" (JVal.str "68-0262823")
         (JObj.cons "contact" (JVal.str "Corporate")
         (JObj.cons "performance" (JVal.str "Heavily favored, contract doubled from $2.5M to $5M")
         (JObj.cons "notes" (JVal.str "Consistently receiving majority of work orders")
         (JObj.nil))))))))
       (JObj.cons "Mark Scott Construction Inc." (JVal.obj (JObj.cons "contracts" (JVal.arr (JArr.cons (JVal.str "JOC-017")
           (JArr.nil)))
         (JObj.cons "performance" (JVal.str "Heavily favored, contract doubled from $2.5M to $5M")
         (JObj.cons "notes" (JVal.str "Receives consistent RFPs and job orders")
         (JObj.nil)))))
       (JObj.cons "M.V.P. Construction" (JVal.obj (JObj.cons "contracts" (JVal.arr (JArr.cons (JVal.str "JOC-020")
           (JArr.nil)))
         (JObj.cons "note" (JVal.str "Different entity, distinct from MVP")
         (JObj.nil))))
       (JObj.nil))))
  county_contacts := JVal.obj (JObj.cons "Jeff Acuff" (JVal.obj (JObj.cons "title" (JVal.str "Division Manager - Capital Projects Management")
         (JObj.cons "office" (JVal.str "925-655-3130")
         (JObj.cons "mobile" (JVal.str "925-595-6001")
         (JObj.cons "email" (JVal.str "Jeff.Acuff@pw.cccounty.us")
         (JObj.nil))))))
       (JObj.cons "Ramesh Kanzaria" (JVal.obj (JObj.cons "title" (JVal.str "Capital Projects Division Manager")
         (JObj.cons "entity" (JVal.str "Contra Costa County")
         (JObj.nil))))
       (JObj.cons "Warren Lai" (JVal.obj (JObj.cons "title" (JVal.str "Deputy Public Works Director")
         (JObj.cons "entity" (JVal.str "Contra Costa County")
         (JObj.nil))))
       (JObj.nil))))

/-- `scrape_joc_tracking_data`: the literal `metrics` dict. -/
def MVPContractorTracker.scrape_joc_tracking_data
    (self : MVPContractorTracker) : MVPContractorTracker × JVal :=
  let metrics : JVal := JVal.obj (JObj.cons "joc_017_018_019_020" (JVal.obj (JObj.cons "report_date" (JVal.str "2022-12-09")
         (JObj.cons "contractors" (JVal.arr (JArr.cons (JVal.str "Mark Scott Construction Inc.")
           (JArr.cons (JVal.str "Aztec Consultants Inc.")
           (JArr.cons (JVal.str "MIK Construction")
           (JArr.cons (JVal.str "M.V.P. Construction")
           (JArr.nil))))))
         (JObj.cons "total_issued" (JVal.obj (JObj.cons "JOC-017" (JVal.str "$1,879,526.93")
           (JObj.cons "JOC-018" (JVal.str "$2,238,389.05")
           (JObj.cons "JOC-019" (JVal.str "$318,702.15")
           (JObj.cons "JOC-020" (JVal.str "$0.00")
           (JObj.nil))))))
         (JObj.cons "project_samples" (JVal.arr (JArr.cons (JVal.obj (JObj.cons "job_order" (JVal.str "J17-02-250-22009-W")
             (JObj.cons "title" (JVal.str "Lab Building Parking Lot Modification")
             (JObj.cons "contractor" (JVal.str "Mark Scott Construction")
             (JObj.cons "amount" (JVal.str "$313,519.21")
             (JObj.cons "status" (JVal.str "Construction Start")
             (JObj.nil)))))))
           (JArr.cons (JVal.obj (JObj.cons "job_order" (JVal.str "J18-01-345-2101-WH")
             (JObj.cons "title" (JVal.str "Pittsburg Health Center Cooling Tower Replacement")
             (JObj.cons "contractor" (JVal.str "Aztec Consultants")
             (JObj.cons "amount" (JVal.str "$988,469.46")
             (JObj.cons "status" (JVal.str "Construction Start")
             (JObj.nil)))))))
           (JArr.nil))))
         (JObj.nil))))))
       (JObj.nil))
  (self, metrics)

/-- `analyze_contract_disparity`: the literal `analysis` dict. -/
def MVPContractorTracker.analyze_contract_disparity
    (self : MVPContractorTracker) : MVPContractorTracker × JVal :=
  let analysis : JVal := JVal.obj (JObj.cons "findings" (JVal.obj (JObj.cons "mvc_historical_revenue" (JVal.str "$250,000")
         (JObj.cons "mvc_total_bonding_costs" (JVal.str "$150,000 (JOCs 12-20)")
         (JObj.cons "mvc_net_loss" (JVal.str "-$0 to -$150k estimated")
         (JObj.cons "mvc_rfps_received_joc_12_16" (JVal.num 2)
         (JObj.cons "mvc_time_to_first_project" (JVal.str "~12 months after contract award")
         (JObj.cons "mvc_status" (JVal.str "Consistently underbid and underutilized")
         (JObj.nil))))))))
       (JObj.cons "competitor_performance" (JVal.obj (JObj.cons "aztec_2022_awarded" (JVal.str "$2,238,389.05")
         (JObj.cons "mark_scott_2022_awarded" (JVal.str "$1,879,526.93")
         (JObj.cons "mvc_2022_awarded" (JVal.str "$0.00")
         (JObj.nil)))))
       (JObj.cons "equity_concerns" (JVal.obj (JObj.cons "contract_extensions" (JVal.str "Aztec received contract extension, doubled from $2.5M to $5M")
         (JObj.cons "rfp_distribution" (JVal.str "Unequal - same 2 contractors dominate all work")
         (JObj.cons "minimum_fulfillment" (JVal.str "County obligation only includes minimum, not equitable distribution")
         (JObj.cons "mvc_concern" (JVal.str "Never completed full 50% of awarded contract value")
         (JObj.nil))))))
       (JObj.nil))))
  (self, analysis)

/-- `scrape_email_communications`: the literal `correspondence` dict. -/
def MVPContractorTracker.scrape_email_communications
    (self : MVPContractorTracker) : MVPContractorTracker × JVal :=
  let correspondence : JVal := JVal.obj (JObj.cons "critical_dates" (JVal.obj (JObj.cons "2022-01-28" (JVal.str "Mike Vila requests public records on JOC distribution")
         (JObj.cons "2022-02-04" (JVal.str "County acknowledges delay in work opportunities")
         (JObj.cons "2024-01-16" (JVal.str "Invoice 023-007-004 payment inquiry - California Prompt Payment Act cited")
         (JObj.cons "2024-02-06" (JVal.str "30 Muir Road reconciliation dispute - $60k+ in dispute")
         (JObj.cons "2024-06-26" (JVal.str "County acknowledges Public Contract Code 20104.50 obligations")
         (JObj.cons "2025-01-27" (JVal.str "JOC-025 contract equity concerns raised")
         (JObj.cons "2025-01-28" (JVal.str "County confirms JOC-025 dates: 2024-07-29 to 2025-10-26")
         (JObj.nil)))))))))
       (JObj.cons "payment_issues" (JVal.obj (JObj.cons "invoice_023_007_006" (JVal.str "Undisputed payment delay")
         (JObj.cons "invoice_023_007_007" (JVal.str "Undisputed payment delay")
         (JObj.cons "applicable_law" (JVal.str "California Prompt Payment Act, Sections 8800-8818")
         (JObj.cons "interest_rate" (JVal.str "2% per month on unpaid balance")
         (JObj.cons "county_acknowledgment" (JVal.str "County agreed to audit invoice receipt dates")
         (JObj.nil)))))))
       (JObj.cons "reconciliation_issues" (JVal.obj (JObj.cons "30_muir_project" (JVal.str "Significant scope dispute")
         (JObj.cons "duration" (JVal.str "December 2023 - February 2024 (ongoing)")
         (JObj.cons "parties" (JVal.obj (JObj.cons "mvc" (JVal.str "Mike Vila, Owner")
           (JObj.cons "county_pm" (JVal.str "Brendan Havenar-Daughton, Energy Manager")
           (JObj.cons "county_management" (JVal.str "Mauricio Moreno, Jeff Acuff")
           (JObj.cons "county_consultant" (JVal.str "George Stavros, Gordian")
           (JObj.nil))))))
         (JObj.cons "disputed_amount" (JVal.str "$40,000+ (estimated based on correspondence)")
         (JObj.nil))))))
       (JObj.nil))))
  (self, correspondence)

/-- `generate_equity_report`, with `datetime.now().isoformat()` passed in
as `now`; the three helper calls are threaded in source order
(`analyze_contract_disparity`, then `scrape_email_communications`, then
`scrape_joc_tracking_data`, following the report dict's evaluation
order). -/
def MVPContractorTracker.generate_equity_report
    (self : MVPContractorTracker) (now : String) :
    MVPContractorTracker × JVal :=
  let (self1, analyze_contract_disparity) :=
    MVPContractorTracker.analyze_contract_disparity self
  let (self2, scrape_email_communications) :=
    MVPContractorTracker.scrape_email_communications self1
  let (self3, scrape_joc_tracking_data) :=
    MVPContractorTracker.scrape_joc_tracking_data self2
  let report : JVal := JVal.obj (JObj.cons "title" (JVal.str "JOC Work Distribution Equity Analysis - MVP Construction")
       (JObj.cons "date_generated" (JVal.str now)
       (JObj.cons "jurisdiction" (JVal.str "Contra Costa County, California")
       (JObj.cons "analysis" (analyze_contract_disparity)
       (JObj.cons "communications" (scrape_email_communications)
       (JObj.cons "metrics" (scrape_joc_tracking_data)
       (JObj.cons "recommendations" (JVal.arr (JArr.cons (JVal.str "Request formal audit of JOC work distribution methodology")
         (JArr.cons (JVal.str "Document all RFP distribution patterns for legal review")
         (JArr.cons (JVal.str "File Public Contract Code Section 20104.50 payment compliance request")
         (JArr.cons (JVal.str "Consider legal action for disparate contract treatment")
         (JArr.cons (JVal.str "Archive all correspondence for potential litigation")
         (JArr.nil)))))))
       (JObj.nil))))))))
  (self3, report)

/-- `save_report`: JSON dump to `filename`
(default `joc_equity_analysis.json`), returning `filename`.  The
`logger.info` call writes to stderr only and is not modelled. -/
def MVPContractorTracker.save_report (self : MVPContractorTracker)
    (report : JVal) (fs : FS)
    (filename : String := "joc_equity_analysis.json") :
    Except String (MVPContractorTracker × String × FS) :=
  (fs.write filename (String.mk (dumps report))).map fun fs2 =>
    (self, filename, fs2)

/-- The script entry point (`__main__`): construct, generate, save,
print. -/
def mvc_main (now : String) (fs : FS) : Except String (FS × String) :=
  let tracker := MVPContractorTracker.init
  let (tracker1, report) := tracker.generate_equity_report now
  match tracker1.save_report report fs with
  | .ok (_, _, fs2) => .ok (fs2, String.mk (dumps report ++ ['\n']))
  | .error e => .error e

/-! ## Accessors used by the verification statements. -/

/-- The members of a report object (reports are always objects). -/
def topObj : JVal → JObj
  | .obj o => o
  | _ => .nil

/-- The keys of an object's members, in insertion order. -/
def JObj.keys : JObj → List String
  | .nil => []
  | .cons k _ tl => k :: tl.keys

/-- The value at key `k` (first occurrence), as Python `d[k]` reads it. -/
def JObj.lookup (k : String) : JObj → Option JVal
  | .nil => none
  | .cons k2 v tl => if k2 = k then some v else tl.lookup k

/-- Follow a path of keys through nested objects. -/
def getPath (v : JVal) : List String → Option JVal
  | [] => some v
  | k :: ks =>
    match v with
    | .obj o =>
      match o.lookup k with
      | some w => getPath w ks
      | none => none
    | _ => none

/-- The element at position `i` of an array, as Python `l[i]` reads it. -/
def JArr.get? : JArr → Nat → Option JVal
  | .nil, _ => none
  | .cons x _, 0 => some x
  | .cons _ tl, n + 1 => tl.get? n

/-- Follow a path of object keys (`.inl`) and array indices (`.inr`)
through nested objects and arrays. -/
def getPathG (v : JVal) : List (String ⊕ Nat) → Option JVal
  | [] => some v
  | .inl k :: ps =>
    match v with
    | .obj o =>
      match o.lookup k with
      | some w => getPathG w ps
      | none => none
    | _ => none
  | .inr i :: ps =>
    match v with
    | .arr a =>
      match a.get? i with
      | some w => getPathG w ps
      | none => none
    | _ => none

/-- Replace the value at key `k` (first occurrence) among an object's
members. -/
def JObj.setVal (k : String) (nv : JVal) : JObj → JObj
  | .nil => .nil
  | .cons k2 v tl =>
    if k2 = k then .cons k2 nv tl else .cons k2 v (tl.setVal k nv)

/-- Replace the value at top-level key `k` of an object. -/
def setTop (k : String) (nv : JVal) : JVal → JVal
  | .obj o => .obj (o.setVal k nv)
  | v => v

/-- The report `county_communications_scraper.py` generates when
`datetime.now().isoformat()` returns `now`. -/
def county_report (now : String) : JVal :=
  (CountyOfficialsScraper.init.generate_complete_report now).2

/-- The report `legal_documents_scraper.py` generates when
`datetime.now().isoformat()` returns `now`. -/
def legal_report (now : String) : JVal :=
  (LegalDocumentsScraper.init.generate_legal_analysis_report now).2

/-- The report `mvc_joc_tracker.py` generates when
`datetime.now().isoformat()` returns `now`. -/
def equity_report (now : String) : JVal :=
  (MVPContractorTracker.init.generate_equity_report now).2

/-! ## The extract/scrape/analyze operations as an operation alphabet, for
the frame/effect claim. -/

/-- The county scraper's data-extraction operations. -/
inductive CountyOp where
  | scrape_communication_records
  | extract_contract_identifiers
  | scrape_public_records_data

/-- Run one county extraction operation. -/
def countyOpRun : CountyOp → CountyOfficialsScraper → CountyOfficialsScraper × JVal
  | .scrape_communication_records, s => s.scrape_communication_records
  | .extract_contract_identifiers, s => s.extract_contract_identifiers
  | .scrape_public_records_data, s => s.scrape_public_records_data

/-- The legal scraper's data-extraction operations. -/
inductive LegalOp where
  | extract_aztec_contract_terms
  | extract_payment_law_compliance
  | extract_contract_code_requirements
  | extract_disputed_projects
  | extract_ens_legis_framework

/-- Run one legal extraction operation. -/
def legalOpRun : LegalOp → LegalDocumentsScraper → LegalDocumentsScraper × JVal
  | .extract_aztec_contract_terms, s => s.extract_aztec_contract_terms
  | .extract_payment_law_compliance, s => s.extract_payment_law_compliance
  | .extract_contract_code_requirements, s => s.extract_contract_code_requirements
  | .extract_disputed_projects, s => s.extract_disputed_projects
  | .extract_ens_legis_framework, s => s.extract_ens_legis_framework

/-- The equity tracker's data-extraction operations. -/
inductive MvcOp where
  | scrape_joc_tracking_data
  | analyze_contract_disparity
  | scrape_email_communications

/-- Run one equity-tracker extraction operation. -/
def mvcOpRun : MvcOp → MVPContractorTracker → MVPContractorTracker × JVal
  | .scrape_joc_tracking_data, s => s.scrape_joc_tracking_data
  | .analyze_contract_disparity, s => s.analyze_contract_disparity
  | .scrape_email_communications, s => s.scrape_email_communications

/-! ## Every serialized report is pure ASCII (`ensure_ascii=True`). -/

/-- All characters are 7-bit ASCII, so the written bytes are the same in
UTF-8 and in every ASCII-compatible locale encoding. -/
def allAscii (cs : List Char) : Prop := ∀ c ∈ cs, c.toNat < 128

/-! ## Well-formedness and fuel bounds for the round-trip theorem. -/

/-- Characters below the astral plane; the reader decodes their `\uXXXX`
escape to the same character.  All characters in the scripts' data are
ASCII except one en-dash (`U+2013`), well below this bound. -/
def wfChar (c : Char) : Bool := c.toNat < 65536

/-- All characters of the string are below the astral plane. -/
def wfStr (s : String) : Bool := s.toList.all wfChar

mutual
/-- Values the reader reconstructs exactly: strings of `wfChar`s and
non-negative integers (all integers in the scripts' data are
non-negative). -/
def wfV : JVal → Bool
  | .str s => wfStr s
  | .num n => decide (0 ≤ n)
  | .bool _ => true
  | .arr a => wfA a
  | .obj o => wfO o
  termination_by structural v => v

/-- `wfV` on every array element. -/
def wfA : JArr → Bool
  | .nil => true
  | .cons x xs => wfV x && wfA xs
  termination_by structural a => a

/-- `wfV` on every member value, `wfStr` on every key. -/
def wfO : JObj → Bool
  | .nil => true
  | .cons k v tl => wfStr k && wfV v && wfO tl
  termination_by structural o => o
end

mutual
/-- Fuel needed by `parseV` to read this value back. -/
def sizeV : JVal → Nat
  | .str _ => 1
  | .num _ => 1
  | .bool _ => 1
  | .arr .nil => 1
  | .arr (.cons x xs) => 1 + sizeV x + sizeA xs
  | .obj .nil => 1
  | .obj (.cons _ v tl) => 2 + sizeV v + sizeO tl
  termination_by structural v => v

/-- Fuel needed by `parseArrRest` for the remaining elements. -/
def sizeA : JArr → Nat
  | .nil => 1
  | .cons x xs => 1 + sizeV x + sizeA xs
  termination_by structural a => a

/-- Fuel needed by `parseObjRest` for the remaining members. -/
def sizeO : JObj → Nat
  | .nil => 1
  | .cons _ v tl => 2 + sizeV v + sizeO tl
  termination_by structural o => o
end

/-- The input does not begin with a decimal digit (so a preceding number
literal cannot absorb it). -/
def notDigitStart : List Char → Prop
  | [] => True
  | c :: _ => c.isDigit = false

/-! ## Tails of the reports, for the well-formedness proofs. -/

/-- The county report's members below `title` and `date_generated`. -/
def countyRest : JObj :=
  match county_report "" with
  | .obj (.cons _ _ (.cons _ _ r)) => r
  | _ => .nil
/-- The legal report's members below `title` and `date_generated`. -/
def legalRest : JObj :=
  match legal_report "" with
  | .obj (.cons _ _ (.cons _ _ r)) => r
  | _ => .nil
/-- The equity report's members below `title` and `date_generated`. -/
def equityRest : JObj :=
  match equity_report "" with
  | .obj (.cons _ _ (.cons _ _ r)) => r
  | _ => .nil

/-! # Theorems -/

theorem allAscii_append {a b : List Char} (ha : allAscii a) (hb : allAscii b) :
    allAscii (a ++ b) := by
  intro c hc
  rcases List.mem_append.mp hc with h | h
  · exact ha c h
  · exact hb c h

theorem allAscii_nil : allAscii [] := by
  intro c hc
  cases hc

theorem allAscii_cons {c : Char} {l : List Char} (hc : c.toNat < 128)
    (hl : allAscii l) : allAscii (c :: l) := by
  intro x hx
  rcases List.mem_cons.mp hx with rfl | hx
  · exact hc
  · exact hl x hx

theorem allAscii_spaces (n : Nat) : allAscii (spaces n) := by
  induction n with
  | zero => exact allAscii_nil
  | succ n ih => exact allAscii_cons (by decide) ih

theorem allAscii_nlIndent (d : Nat) : allAscii (nlIndent d) :=
  allAscii_cons (by decide) (allAscii_spaces _)

theorem getD_prop {P : Char → Prop} :
    ∀ (l : List Char) (n : Nat) (d : Char),
      (∀ c ∈ l, P c) → P d → P (l.getD n d)
  | [], _, _, _, hd => hd
  | c :: _, 0, _, hl, _ => hl c (by simp)
  | _ :: cs, n + 1, d, hl, hd =>
    getD_prop cs n d (fun x hx => hl x (by simp [hx])) hd

theorem hexDigit_ascii (n : Nat) : (hexDigit n).toNat < 128 := by
  unfold hexDigit
  exact @getD_prop (fun c => c.toNat < 128) _ n _ (by decide) (by decide)

theorem allAscii_uEscape (n : Nat) : allAscii (uEscape n) :=
  allAscii_cons (by decide) (allAscii_cons (by decide)
    (allAscii_cons (hexDigit_ascii _) (allAscii_cons (hexDigit_ascii _)
      (allAscii_cons (hexDigit_ascii _)
        (allAscii_cons (hexDigit_ascii _) allAscii_nil)))))

theorem allAscii_escapeChar (c : Char) : allAscii (escapeChar c) := by
  unfold escapeChar
  repeat' split
  all_goals
    first
      | exact allAscii_uEscape _
      | exact allAscii_append (allAscii_uEscape _) (allAscii_uEscape _)
      | exact allAscii_cons (by decide) (allAscii_cons (by decide) allAscii_nil)
      | (refine allAscii_cons ?_ allAscii_nil; omega)

theorem allAscii_escapeList (l : List Char) : allAscii (escapeList l) := by
  induction l with
  | nil => exact allAscii_nil
  | cons c cs ih => exact allAscii_append (allAscii_escapeChar c) ih

theorem allAscii_renderStr (s : String) : allAscii (renderStr s) :=
  allAscii_cons (by decide)
    (allAscii_append (allAscii_escapeList _)
      (allAscii_cons (by decide) allAscii_nil))

theorem allAscii_natDigitsAux (f : Nat) : ∀ n, allAscii (natDigitsAux f n) := by
  induction f with
  | zero => exact fun _ => allAscii_nil
  | succ f ih =>
    intro n
    unfold natDigitsAux
    split
    · exact allAscii_cons (hexDigit_ascii _) allAscii_nil
    · exact allAscii_append (ih _)
        (allAscii_cons (hexDigit_ascii _) allAscii_nil)

theorem allAscii_intChars (n : Int) : allAscii (intChars n) := by
  unfold intChars
  split
  · exact allAscii_cons (by decide) (allAscii_natDigitsAux _ _)
  · exact allAscii_natDigitsAux _ _

mutual
theorem allAscii_renderV (d : Nat) (v : JVal) : allAscii (renderV d v) := by
  cases v with
  | str s => exact allAscii_renderStr s
  | num n => exact allAscii_intChars n
  | bool b =>
    cases b
    · exact allAscii_cons (by decide) (allAscii_cons (by decide)
        (allAscii_cons (by decide) (allAscii_cons (by decide)
          (allAscii_cons (by decide) allAscii_nil))))
    · exact allAscii_cons (by decide) (allAscii_cons (by decide)
        (allAscii_cons (by decide) (allAscii_cons (by decide) allAscii_nil)))
  | arr a =>
    cases a with
    | nil =>
      exact allAscii_cons (by decide) (allAscii_cons (by decide) allAscii_nil)
    | cons x xs =>
      exact allAscii_cons (by decide)
        (allAscii_append (allAscii_append (allAscii_append
          (allAscii_append (allAscii_nlIndent _) (allAscii_renderV (d + 1) x))
          (allAscii_renderArr (d + 1) xs)) (allAscii_nlIndent _))
          (allAscii_cons (by decide) allAscii_nil))
  | obj o =>
    cases o with
    | nil =>
      exact allAscii_cons (by decide) (allAscii_cons (by decide) allAscii_nil)
    | cons k v tl =>
      exact allAscii_cons (by decide)
        (allAscii_append (allAscii_append (allAscii_append
          (allAscii_append (allAscii_nlIndent _)
            (allAscii_append (allAscii_renderStr k)
              (allAscii_cons (by decide) (allAscii_cons (by decide)
                (allAscii_renderV (d + 1) v)))))
          (allAscii_renderObj (d + 1) tl)) (allAscii_nlIndent _))
          (allAscii_cons (by decide) allAscii_nil))

theorem allAscii_renderArr (d : Nat) (a : JArr) : allAscii (renderArr d a) := by
  cases a with
  | nil => exact allAscii_nil
  | cons x xs =>
    exact allAscii_cons (by decide)
      (allAscii_append
        (allAscii_append (allAscii_nlIndent _) (allAscii_renderV d x))
        (allAscii_renderArr d xs))

theorem allAscii_renderObj (d : Nat) (o : JObj) : allAscii (renderObj d o) := by
  cases o with
  | nil => exact allAscii_nil
  | cons k v tl =>
    exact allAscii_cons (by decide)
      (allAscii_append
        (allAscii_append (allAscii_nlIndent _)
          (allAscii_append (allAscii_renderStr k)
            (allAscii_cons (by decide) (allAscii_cons (by decide)
              (allAscii_renderV d v)))))
        (allAscii_renderObj d tl))
end

theorem allAscii_dumps (v : JVal) : allAscii (dumps v) :=
  allAscii_renderV 0 v
/-! ## Whitespace and parser-congruence lemmas. -/

theorem skipWs_spaces (n : Nat) : ∀ cs, skipWs (spaces n ++ cs) = skipWs cs := by
  induction n with
  | zero => intro cs; rfl
  | succ n ih => intro cs; rw [spaces, List.cons_append, skipWs]; simpa using ih cs

theorem skipWs_nlIndent (d : Nat) (cs : List Char) :
    skipWs (nlIndent d ++ cs) = skipWs cs := by
  rw [nlIndent, List.cons_append, skipWs]
  simpa using skipWs_spaces (2 * d) cs

theorem skipWs_not_ws {c : Char} (h : isWs c = false) (cs : List Char) :
    skipWs (c :: cs) = c :: cs := by
  rw [skipWs, h]
  simp

theorem parseV_congr {cs1 cs2 : List Char} (f : Nat)
    (h : skipWs cs1 = skipWs cs2) : parseV f cs1 = parseV f cs2 := by
  cases f with
  | zero => rfl
  | succ f => rw [parseV, parseV, h]

theorem parseArrRest_congr {cs1 cs2 : List Char} (f : Nat)
    (h : skipWs cs1 = skipWs cs2) : parseArrRest f cs1 = parseArrRest f cs2 := by
  cases f with
  | zero => rfl
  | succ f => rw [parseArrRest, parseArrRest, h]

theorem parseMember_congr {cs1 cs2 : List Char} (f : Nat)
    (h : skipWs cs1 = skipWs cs2) : parseMember f cs1 = parseMember f cs2 := by
  cases f with
  | zero => rfl
  | succ f => rw [parseMember, parseMember, h]

theorem parseObjRest_congr {cs1 cs2 : List Char} (f : Nat)
    (h : skipWs cs1 = skipWs cs2) : parseObjRest f cs1 = parseObjRest f cs2 := by
  cases f with
  | zero => rfl
  | succ f => rw [parseObjRest, parseObjRest, h]

/-! ## The string escape round-trip. -/

theorem char_not_surrogate (c : Char) : c.toNat < 55296 ∨ 57344 ≤ c.toNat := by
  rcases c.valid with h | ⟨h1, _⟩
  · left; exact_mod_cast h
  · right; exact_mod_cast h1

theorem hexVal_hexDigit (m : Nat) (h : m < 16) :
    hexVal (hexDigit m) = some m := by
  interval_cases m <;> decide

theorem hex4Val_uEscape (n : Nat) :
    hex4Val (hexDigit (n / 4096 % 16)) (hexDigit (n / 256 % 16))
      (hexDigit (n / 16 % 16)) (hexDigit (n % 16)) = some (n % 65536) := by
  rw [hex4Val, hexVal_hexDigit _ (by omega), hexVal_hexDigit _ (by omega),
    hexVal_hexDigit _ (by omega), hexVal_hexDigit _ (by omega)]
  show some (4096 * (n / 4096 % 16) + 256 * (n / 256 % 16)
    + 16 * (n / 16 % 16) + n % 16) = some (n % 65536)
  exact congrArg some (by omega)

/-- Reading back a `\uXXXX` escape of a non-surrogate code point. -/
theorem parseStrBody_uEscape (n : Nat) (h1 : n < 65536)
    (h2 : n < 55296 ∨ 57344 ≤ n) (cs : List Char) :
    parseStrBody (uEscape n ++ cs) =
      (parseStrBody cs).map fun p => (Char.ofNat n :: p.1, p.2) := by
  rw [uEscape]
  simp only [List.cons_append, List.nil_append]
  rw [show parseStrBody (Char.ofNat 92 :: 'u' :: hexDigit (n / 4096 % 16)
        :: hexDigit (n / 256 % 16) :: hexDigit (n / 16 % 16)
        :: hexDigit (n % 16) :: cs)
      = parseU (hexDigit (n / 4096 % 16) :: hexDigit (n / 256 % 16)
        :: hexDigit (n / 16 % 16) :: hexDigit (n % 16) :: cs) from rfl]
  rw [parseU, hex4Val_uEscape, Nat.mod_eq_of_lt h1]
  change (if 55296 ≤ n ∧ n ≤ 56319 then parseLowSur n cs
    else if 56320 ≤ n ∧ n ≤ 57343 then none
    else (parseStrBody cs).map fun p => (Char.ofNat n :: p.1, p.2)) = _
  rw [if_neg (by omega), if_neg (by omega)]

/-- Reading back the escape of any below-astral character recovers it. -/
theorem parseStrBody_escapeChar (c : Char) (h : c.toNat < 65536)
    (cs : List Char) :
    parseStrBody (escapeChar c ++ cs) =
      (parseStrBody cs).map fun p => (c :: p.1, p.2) := by
  have hv := char_not_surrogate c
  unfold escapeChar
  by_cases h34 : c.toNat = 34
  · rw [if_pos h34,
      show c = Char.ofNat 34 from by rw [← Char.ofNat_toNat c, h34]]
    rfl
  rw [if_neg h34]
  by_cases h92 : c.toNat = 92
  · rw [if_pos h92,
      show c = Char.ofNat 92 from by rw [← Char.ofNat_toNat c, h92]]
    rfl
  rw [if_neg h92]
  by_cases h8 : c.toNat = 8
  · rw [if_pos h8,
      show c = Char.ofNat 8 from by rw [← Char.ofNat_toNat c, h8]]
    rfl
  rw [if_neg h8]
  by_cases h9 : c.toNat = 9
  · rw [if_pos h9,
      show c = Char.ofNat 9 from by rw [← Char.ofNat_toNat c, h9]]
    rfl
  rw [if_neg h9]
  by_cases h10 : c.toNat = 10
  · rw [if_pos h10,
      show c = Char.ofNat 10 from by rw [← Char.ofNat_toNat c, h10]]
    rfl
  rw [if_neg h10]
  by_cases h12 : c.toNat = 12
  · rw [if_pos h12,
      show c = Char.ofNat 12 from by rw [← Char.ofNat_toNat c, h12]]
    rfl
  rw [if_neg h12]
  by_cases h13 : c.toNat = 13
  · rw [if_pos h13,
      show c = Char.ofNat 13 from by rw [← Char.ofNat_toNat c, h13]]
    rfl
  rw [if_neg h13]
  by_cases hlt32 : c.toNat < 32
  · rw [if_pos hlt32, parseStrBody_uEscape c.toNat (by omega) (by omega),
      Char.ofNat_toNat]
  rw [if_neg hlt32]
  by_cases h127 : c.toNat < 127
  · rw [if_pos h127]
    simp only [List.cons_append, List.nil_append]
    rw [parseStrBody, if_neg h34, if_neg h92]
  rw [if_neg h127, if_pos (show c.toNat < 65536 from h)]
  rw [parseStrBody_uEscape c.toNat h (by omega), Char.ofNat_toNat]

/-- Reading back an escaped string body up to the closing quote. -/
theorem parseStrBody_escapeList :
    ∀ (l : List Char), l.all wfChar = true → ∀ (cs : List Char),
      parseStrBody (escapeList l ++ Char.ofNat 34 :: cs) = some (l, cs) := by
  intro l
  induction l with
  | nil => intro _ cs; rfl
  | cons c tl ih =>
    intro hw cs
    simp only [List.all_cons, Bool.and_eq_true] at hw
    rw [escapeList, List.append_assoc,
      parseStrBody_escapeChar c (by simpa [wfChar] using hw.1),
      ih hw.2 cs]
    rfl

/-! ## The integer round-trip. -/

theorem digitsToNat_append :
    ∀ (l1 l2 : List Char) (acc : Nat),
      digitsToNat (l1 ++ l2) acc = digitsToNat l2 (digitsToNat l1 acc)
  | [], _, _ => rfl
  | c :: cs, l2, acc => by
    rw [List.cons_append, digitsToNat, digitsToNat]
    exact digitsToNat_append cs l2 _

theorem hexDigit_digit (m : Nat) (h : m < 10) :
    (hexDigit m).isDigit = true ∧ (hexDigit m).toNat = 48 + m := by
  interval_cases m <;> exact ⟨by decide, by decide⟩

theorem natDigitsAux_spec :
    ∀ (f n : Nat), n < f →
      natDigitsAux f n ≠ []
      ∧ (∀ c ∈ natDigitsAux f n,
          c.isDigit = true ∧ 48 ≤ c.toNat ∧ c.toNat ≤ 57)
      ∧ ∀ acc, digitsToNat (natDigitsAux f n) acc
          = acc * 10 ^ (natDigitsAux f n).length + n := by
  intro f
  induction f with
  | zero => intro n h; omega
  | succ f ih =>
    intro n h
    rw [natDigitsAux]
    by_cases h10 : n < 10
    · rw [if_pos h10]
      obtain ⟨hd, hv⟩ := hexDigit_digit n h10
      refine ⟨by simp, ?_, ?_⟩
      · intro c hc
        rcases List.mem_cons.mp hc with rfl | hc
        · exact ⟨hd, by omega, by omega⟩
        · cases hc
      · intro acc
        rw [digitsToNat, digitsToNat, hv]
        simp
    · rw [if_neg h10]
      obtain ⟨hne, hdig, hval⟩ := ih (n / 10) (by omega)
      obtain ⟨hd, hv⟩ := hexDigit_digit (n % 10) (by omega)
      refine ⟨by simp [hne], ?_, ?_⟩
      · intro c hc
        rcases List.mem_append.mp hc with hc | hc
        · exact hdig c hc
        · rcases List.mem_cons.mp hc with rfl | hc
          · exact ⟨hd, by omega, by omega⟩
          · cases hc
      · intro acc
        rw [digitsToNat_append, digitsToNat, digitsToNat, hval, hv,
          List.length_append, List.length_cons, List.length_nil]
        rw [pow_succ]
        have hmod : n / 10 * 10 + n % 10 = n := by omega
        calc (acc * 10 ^ (natDigitsAux f (n / 10)).length + n / 10) * 10
              + (48 + n % 10 - 48)
            = acc * (10 ^ (natDigitsAux f (n / 10)).length * 10)
              + (n / 10 * 10 + n % 10) := by ring_nf; omega
          _ = acc * (10 ^ (natDigitsAux f (n / 10)).length * 10) + n := by
              rw [hmod]

theorem natDigits_spec (n : Nat) :
    natDigits n ≠ []
    ∧ (∀ c ∈ natDigits n, c.isDigit = true ∧ 48 ≤ c.toNat ∧ c.toNat ≤ 57)
    ∧ digitsToNat (natDigits n) 0 = n := by
  obtain ⟨h1, h2, h3⟩ := natDigitsAux_spec (n + 1) n (by omega)
  exact ⟨h1, h2, by rw [natDigits, h3 0]; omega⟩

theorem takeDigits_append :
    ∀ (ds cs : List Char), (∀ c ∈ ds, c.isDigit = true) → notDigitStart cs →
      takeDigits (ds ++ cs) = (ds, cs)
  | [], cs, _, hcs => by
    cases cs with
    | nil => rfl
    | cons c cs2 =>
      rw [List.nil_append, takeDigits]
      rw [show c.isDigit = false from hcs]
      simp
  | d :: ds, cs, hds, hcs => by
    rw [List.cons_append, takeDigits,
      show d.isDigit = true from hds d (by simp)]
    rw [takeDigits_append ds cs (fun c hc => hds c (by simp [hc])) hcs]
    simp

/-! ## First characters of renderings. -/

theorem char_ne_of_toNat_ne {c d : Char} (h : c.toNat ≠ d.toNat) : c ≠ d :=
  fun he => h (by rw [he])

theorem isWs_eq_false {c : Char} (h32 : c.toNat ≠ 32) (h9 : c.toNat ≠ 9)
    (h10 : c.toNat ≠ 10) (h13 : c.toNat ≠ 13) : isWs c = false := by
  unfold isWs
  simp only [Bool.or_eq_false_iff, decide_eq_false_iff_not]
  exact ⟨⟨⟨char_ne_of_toNat_ne h32, char_ne_of_toNat_ne h9⟩,
    char_ne_of_toNat_ne h10⟩, char_ne_of_toNat_ne h13⟩

/-- Every rendered value starts with a non-whitespace character that is
neither `]` nor the closing brace. -/
theorem renderV_head (v : JVal) (d : Nat) :
    ∃ c rest, renderV d v = c :: rest ∧ isWs c = false
      ∧ c ≠ ']' ∧ c.toNat ≠ 125 := by
  cases v with
  | str s =>
    exact ⟨Char.ofNat 34, _, rfl, by decide, by decide, by decide⟩
  | num n =>
    rw [renderV, intChars]
    by_cases hneg : n < 0
    · rw [if_pos hneg]
      exact ⟨'-', _, rfl, by decide, by decide, by decide⟩
    · rw [if_neg hneg]
      obtain ⟨hne, hdig, _⟩ := natDigits_spec n.toNat
      cases hh : natDigits n.toNat with
      | nil => exact absurd hh hne
      | cons c rest =>
        obtain ⟨_, hlo, hhi⟩ := hdig c (by rw [hh]; simp)
        exact ⟨c, rest, rfl,
          isWs_eq_false (by omega) (by omega) (by omega) (by omega),
          char_ne_of_toNat_ne (by rw [show (']').toNat = 93 from rfl]; omega),
          by omega⟩
  | bool b =>
    cases b
    · exact ⟨'f', _, rfl, by decide, by decide, by decide⟩
    · exact ⟨'t', _, rfl, by decide, by decide, by decide⟩
  | arr a =>
    cases a with
    | nil => exact ⟨'[', _, rfl, by decide, by decide, by decide⟩
    | cons x xs => exact ⟨'[', _, rfl, by decide, by decide, by decide⟩
  | obj o =>
    cases o with
    | nil => exact ⟨Char.ofNat 123, _, rfl, by decide, by decide, by decide⟩
    | cons k v tl =>
      exact ⟨Char.ofNat 123, _, rfl, by decide, by decide, by decide⟩

/-! ## The parser reads back exactly what the renderer wrote. -/

theorem isDigit_of_toNat {c : Char} (h1 : 48 ≤ c.toNat) (h2 : c.toNat ≤ 57) :
    c.isDigit = true := by
  rw [Char.isDigit]
  simp only [Bool.and_eq_true, decide_eq_true_eq]
  exact ⟨h1, h2⟩

theorem notDigitStart_arr_tail (xs : JArr) (d e : Nat) (X : List Char) :
    notDigitStart (renderArr d xs ++ (nlIndent e ++ X)) := by
  cases xs with
  | nil =>
    show ('\n').isDigit = false
    decide
  | cons x xs2 =>
    show (',').isDigit = false
    decide

theorem notDigitStart_obj_tail (o : JObj) (d e : Nat) (X : List Char) :
    notDigitStart (renderObj d o ++ (nlIndent e ++ X)) := by
  cases o with
  | nil =>
    show ('\n').isDigit = false
    decide
  | cons k v tl =>
    show (',').isDigit = false
    decide

theorem match_parse_arr {g : Nat} {X Xr r : List Char} {x : JVal} {tl : JArr}
    (h1 : parseV g X = some (x, Xr))
    (h2 : parseArrRest g Xr = some (tl, r)) :
    (match parseV g X with
     | some (v, r1) =>
       (match parseArrRest g r1 with
        | some (tl2, r2) => some (JVal.arr (.cons v tl2), r2)
        | none => none)
     | none => none) = some (JVal.arr (.cons x tl), r) := by
  rw [h1]
  show (match parseArrRest g Xr with
        | some (tl2, r2) => some (JVal.arr (.cons x tl2), r2)
        | none => none) = _
  rw [h2]

theorem match_parse_obj {g : Nat} {X Xr r : List Char} {k : String}
    {v : JVal} {tl : JObj}
    (h1 : parseMember g X = some (k, v, Xr))
    (h2 : parseObjRest g Xr = some (tl, r)) :
    (match parseMember g X with
     | some (k2, v2, r1) =>
       (match parseObjRest g r1 with
        | some (tl2, r2) => some (JVal.obj (.cons k2 v2 tl2), r2)
        | none => none)
     | none => none) = some (JVal.obj (.cons k v tl), r) := by
  rw [h1]
  show (match parseObjRest g Xr with
        | some (tl2, r2) => some (JVal.obj (.cons k v tl2), r2)
        | none => none) = _
  rw [h2]

theorem match_parse_arrRest {g : Nat} {X Xr r : List Char} {x : JVal} {tl : JArr}
    (h1 : parseV g X = some (x, Xr))
    (h2 : parseArrRest g Xr = some (tl, r)) :
    (match parseV g X with
     | some (v, r1) =>
       (match parseArrRest g r1 with
        | some (tl2, r2) => some (JArr.cons v tl2, r2)
        | none => none)
     | none => none) = some (JArr.cons x tl, r) := by
  rw [h1]
  show (match parseArrRest g Xr with
        | some (tl2, r2) => some (JArr.cons x tl2, r2)
        | none => none) = _
  rw [h2]

theorem match_parse_objRest {g : Nat} {X Xr r : List Char} {k : String}
    {v : JVal} {tl : JObj}
    (h1 : parseMember g X = some (k, v, Xr))
    (h2 : parseObjRest g Xr = some (tl, r)) :
    (match parseMember g X with
     | some (k2, v2, r1) =>
       (match parseObjRest g r1 with
        | some (tl2, r2) => some (JObj.cons k2 v2 tl2, r2)
        | none => none)
     | none => none) = some (JObj.cons k v tl, r) := by
  rw [h1]
  show (match parseObjRest g Xr with
        | some (tl2, r2) => some (JObj.cons k v tl2, r2)
        | none => none) = _
  rw [h2]

theorem parseMember_render (g : Nat) (k : String)
    (hk : k.toList.all wfChar = true) (Y : List Char) (v : JVal)
    (r : List Char) (hv : parseV g (' ' :: Y) = some (v, r)) :
    parseMember (g + 1) (renderStr k ++ (':' :: (' ' :: Y))) = some (k, v, r) := by
  rw [show renderStr k ++ (':' :: (' ' :: Y))
      = Char.ofNat 34 :: (escapeList k.toList
          ++ (Char.ofNat 34 :: (':' :: (' ' :: Y)))) from by
    simp [renderStr, List.append_assoc]]
  rw [parseMember, skipWs_not_ws (by decide)]
  split
  · rename_i heq
    cases heq
  · rename_i c2 r2 heq
    injection heq with he1 he2
    subst he1
    subst he2
    rw [if_pos (by decide), parseStrBody_escapeList k.toList hk]
    show (match skipWs (':' :: (' ' :: Y)) with
          | [] => none
          | c3 :: r3 =>
            if c3 = ':' then
              (match parseV g r3 with
               | some (v2, r4) => some (String.mk k.toList, v2, r4)
               | none => none)
            else none) = some (k, v, r)
    rw [skipWs_not_ws (by decide)]
    split
    · rename_i heq2
      cases heq2
    · rename_i c3 r3 heq2
      injection heq2 with he3 he4
      subst he3
      subst he4
      rw [if_pos rfl, hv]
      rfl

mutual
theorem parse_renderV :
    ∀ (v : JVal) (f d : Nat) (cs : List Char),
      wfV v = true → sizeV v ≤ f → notDigitStart cs →
      parseV f (renderV d v ++ cs) = some (v, cs)
  | .str s, f, d, cs, hw, hf, _ => by
    simp only [wfV] at hw
    obtain ⟨g, rfl⟩ : ∃ g, f = g + 1 := ⟨f - 1, by simp [sizeV] at hf; omega⟩
    rw [show renderV d (.str s) ++ cs
        = Char.ofNat 34 :: (escapeList s.toList ++ (Char.ofNat 34 :: cs)) from by
      simp [renderV, renderStr, List.append_assoc]]
    rw [parseV, skipWs_not_ws (by decide)]
    split
    · rename_i heq
      cases heq
    · rename_i c2 r2 heq
      injection heq with he1 he2
      subst he1
      subst he2
      rw [if_pos (by decide), parseStrBody_escapeList s.toList hw]
      rfl
  | .num n, f, d, cs, hw, hf, hcs => by
    simp only [wfV, decide_eq_true_eq] at hw
    obtain ⟨g, rfl⟩ : ∃ g, f = g + 1 := ⟨f - 1, by simp [sizeV] at hf; omega⟩
    rw [show renderV d (.num n) = natDigits n.toNat from by
      rw [renderV, intChars, if_neg (by omega)]]
    obtain ⟨hne, hdig, hval⟩ := natDigits_spec n.toNat
    cases hh : natDigits n.toNat with
    | nil => exact absurd hh hne
    | cons c ds =>
      obtain ⟨hcd, hlo, hhi⟩ := hdig c (by rw [hh]; exact List.mem_cons_self _ _)
      rw [List.cons_append, parseV,
        skipWs_not_ws (isWs_eq_false (by omega) (by omega) (by omega) (by omega))]
      split
      · rename_i heq
        cases heq
      · rename_i c2 r2 heq
        injection heq with he1 he2
        subst he1
        subst he2
        rw [if_neg (show ¬c.toNat = 34 by omega),
          if_neg (show ¬c = 't' from char_ne_of_toNat_ne
            (by rw [show ('t').toNat = 116 from rfl]; omega)),
          if_neg (show ¬c = 'f' from char_ne_of_toNat_ne
            (by rw [show ('f').toNat = 102 from rfl]; omega)),
          if_neg (show ¬c = '-' from char_ne_of_toNat_ne
            (by rw [show ('-').toNat = 45 from rfl]; omega)),
          if_pos (isDigit_of_toNat hlo hhi)]
        rw [show c :: (ds ++ cs) = (c :: ds) ++ cs from rfl,
          takeDigits_append (c :: ds) cs
            (fun x hx => (hdig x (by rw [hh]; exact hx)).1) hcs]
        show some (JVal.num (digitsToNat (c :: ds) 0 : Int), cs)
          = some (JVal.num n, cs)
        rw [show digitsToNat (c :: ds) 0 = n.toNat from by rw [← hh]; exact hval,
          Int.toNat_of_nonneg hw]
  | .bool true, f, d, cs, _, hf, _ => by
    obtain ⟨g, rfl⟩ : ∃ g, f = g + 1 := ⟨f - 1, by simp [sizeV] at hf; omega⟩
    rw [show renderV d (.bool true) ++ cs = 't' :: 'r' :: 'u' :: 'e' :: cs from rfl,
      parseV, skipWs_not_ws (by decide)]
    rfl
  | .bool false, f, d, cs, _, hf, _ => by
    obtain ⟨g, rfl⟩ : ∃ g, f = g + 1 := ⟨f - 1, by simp [sizeV] at hf; omega⟩
    rw [show renderV d (.bool false) ++ cs
        = 'f' :: 'a' :: 'l' :: 's' :: 'e' :: cs from rfl,
      parseV, skipWs_not_ws (by decide)]
    rfl
  | .arr .nil, f, d, cs, _, hf, _ => by
    obtain ⟨g, rfl⟩ : ∃ g, f = g + 1 := ⟨f - 1, by simp [sizeV] at hf; omega⟩
    rw [show renderV d (.arr .nil) ++ cs = '[' :: (']' :: cs) from rfl,
      parseV, skipWs_not_ws (by decide)]
    rfl
  | .arr (.cons x xs), f, d, cs, hw, hf, _ => by
    have hw2 : wfV x = true ∧ wfA xs = true := by
      simpa [wfV, wfA, Bool.and_eq_true] using hw
    have hf2 : 1 + sizeV x + sizeA xs ≤ f := by simpa [sizeV] using hf
    obtain ⟨g, rfl⟩ : ∃ g, f = g + 1 := ⟨f - 1, by omega⟩
    have hrw : renderV d (.arr (.cons x xs)) ++ cs
        = '[' :: (nlIndent (d + 1) ++ (renderV (d + 1) x
          ++ (renderArr (d + 1) xs ++ (nlIndent d ++ (']' :: cs))))) := by
      rw [renderV]
      simp [List.append_assoc]
    rw [hrw, parseV, skipWs_not_ws (by decide)]
    split
    · rename_i heq
      cases heq
    · rename_i c2 r2 heq
      injection heq with he1 he2
      subst he1
      subst he2
      rw [if_neg (by decide), if_neg (by decide), if_neg (by decide),
        if_neg (by decide), if_neg (by decide), if_pos rfl]
      obtain ⟨ch, chr, hhead, hws, hne, _⟩ := renderV_head x (d + 1)
      rw [show skipWs (nlIndent (d + 1) ++ (renderV (d + 1) x
          ++ (renderArr (d + 1) xs ++ (nlIndent d ++ (']' :: cs)))))
        = ch :: (chr ++ (renderArr (d + 1) xs ++ (nlIndent d ++ (']' :: cs))))
        from by rw [skipWs_nlIndent, hhead, List.cons_append, skipWs_not_ws hws]]
      split
      · rename_i heq2
        cases heq2
      · rename_i c3 r3 heq2
        injection heq2 with he3 he4
        subst he3
        subst he4
        rw [if_neg hne]
        have hx : parseV g (nlIndent (d + 1) ++ (renderV (d + 1) x
            ++ (renderArr (d + 1) xs ++ (nlIndent d ++ (']' :: cs)))))
            = some (x, renderArr (d + 1) xs ++ (nlIndent d ++ (']' :: cs))) :=
          (parseV_congr g (skipWs_nlIndent (d + 1) _)).trans
            (parse_renderV x g (d + 1) _ hw2.1 (by omega)
              (notDigitStart_arr_tail xs (d + 1) d _))
        exact match_parse_arr hx
          (parse_renderArr xs g (d + 1) d cs hw2.2 (by omega))
  | .obj .nil, f, d, cs, _, hf, _ => by
    obtain ⟨g, rfl⟩ : ∃ g, f = g + 1 := ⟨f - 1, by simp [sizeV] at hf; omega⟩
    rw [show renderV d (.obj .nil) ++ cs
        = Char.ofNat 123 :: (Char.ofNat 125 :: cs) from rfl,
      parseV, skipWs_not_ws (by decide)]
    rfl
  | .obj (.cons k v tl), f, d, cs, hw, hf, _ => by
    have hw2 : (wfStr k = true ∧ wfV v = true) ∧ wfO tl = true := by
      simpa [wfV, wfO, Bool.and_eq_true] using hw
    have hf2 : 2 + sizeV v + sizeO tl ≤ f := by simpa [sizeV] using hf
    obtain ⟨g, rfl⟩ : ∃ g, f = g + 1 := ⟨f - 1, by omega⟩
    obtain ⟨g2, rfl⟩ : ∃ g2, g = g2 + 1 := ⟨g - 1, by omega⟩
    have hrw : renderV d (.obj (.cons k v tl)) ++ cs
        = Char.ofNat 123 :: (nlIndent (d + 1) ++ (renderStr k
          ++ (':' :: (' ' :: (renderV (d + 1) v ++ (renderObj (d + 1) tl
            ++ (nlIndent d ++ (Char.ofNat 125 :: cs)))))))) := by
      rw [renderV]
      simp [List.append_assoc]
    rw [hrw, parseV, skipWs_not_ws (by decide)]
    split
    · rename_i heq
      cases heq
    · rename_i c2 r2 heq
      injection heq with he1 he2
      subst he1
      subst he2
      rw [if_neg (by decide), if_neg (by decide), if_neg (by decide),
        if_neg (by decide), if_neg (by decide), if_neg (by decide),
        if_pos (by decide)]
      rw [show skipWs (nlIndent (d + 1) ++ (renderStr k
          ++ (':' :: (' ' :: (renderV (d + 1) v ++ (renderObj (d + 1) tl
            ++ (nlIndent d ++ (Char.ofNat 125 :: cs))))))))
        = Char.ofNat 34 :: (escapeList k.toList ++ (Char.ofNat 34
            :: (':' :: (' ' :: (renderV (d + 1) v ++ (renderObj (d + 1) tl
              ++ (nlIndent d ++ (Char.ofNat 125 :: cs))))))))
        from by
          rw [skipWs_nlIndent]
          rw [show renderStr k ++ (':' :: (' ' :: (renderV (d + 1) v
              ++ (renderObj (d + 1) tl ++ (nlIndent d ++ (Char.ofNat 125 :: cs))))))
            = Char.ofNat 34 :: (escapeList k.toList ++ (Char.ofNat 34
                :: (':' :: (' ' :: (renderV (d + 1) v ++ (renderObj (d + 1) tl
                  ++ (nlIndent d ++ (Char.ofNat 125 :: cs)))))))) from by
            simp [renderStr, List.append_assoc]]
          rw [skipWs_not_ws (by decide)]]
      split
      · rename_i heq2
        cases heq2
      · rename_i c3 r3 heq2
        injection heq2 with he3 he4
        subst he3
        subst he4
        rw [if_neg (by decide)]
        have hv2 : parseV g2 (' ' :: (renderV (d + 1) v ++ (renderObj (d + 1) tl
            ++ (nlIndent d ++ (Char.ofNat 125 :: cs)))))
            = some (v, renderObj (d + 1) tl
                ++ (nlIndent d ++ (Char.ofNat 125 :: cs))) :=
          (parseV_congr g2 (show skipWs (' ' :: (renderV (d + 1) v
              ++ (renderObj (d + 1) tl ++ (nlIndent d ++ (Char.ofNat 125 :: cs)))))
            = skipWs (renderV (d + 1) v ++ (renderObj (d + 1) tl
              ++ (nlIndent d ++ (Char.ofNat 125 :: cs)))) from rfl)).trans
            (parse_renderV v g2 (d + 1) _ hw2.1.2 (by omega)
              (notDigitStart_obj_tail tl (d + 1) d _))
        have hm : parseMember (g2 + 1) (nlIndent (d + 1) ++ (renderStr k
            ++ (':' :: (' ' :: (renderV (d + 1) v ++ (renderObj (d + 1) tl
              ++ (nlIndent d ++ (Char.ofNat 125 :: cs))))))))
            = some (k, v, renderObj (d + 1) tl
                ++ (nlIndent d ++ (Char.ofNat 125 :: cs))) :=
          (parseMember_congr (g2 + 1) (skipWs_nlIndent (d + 1) _)).trans
            (parseMember_render g2 k hw2.1.1 _ v _ hv2)
        exact match_parse_obj hm
          (parse_renderObj tl (g2 + 1) (d + 1) d cs hw2.2 (by omega))
  termination_by structural v => v

theorem parse_renderArr :
    ∀ (xs : JArr) (f d e : Nat) (cs : List Char),
      wfA xs = true → sizeA xs ≤ f →
      parseArrRest f (renderArr d xs ++ (nlIndent e ++ (']' :: cs)))
        = some (xs, cs)
  | .nil, f, d, e, cs, _, hf => by
    obtain ⟨g, rfl⟩ : ∃ g, f = g + 1 := ⟨f - 1, by simp [sizeA] at hf; omega⟩
    rw [show renderArr d JArr.nil ++ (nlIndent e ++ (']' :: cs))
        = nlIndent e ++ (']' :: cs) from by rw [renderArr]; simp]
    rw [parseArrRest, skipWs_nlIndent, skipWs_not_ws (by decide)]
    rfl
  | .cons x xs, f, d, e, cs, hw, hf => by
    have hw2 : wfV x = true ∧ wfA xs = true := by
      simpa [wfA, Bool.and_eq_true] using hw
    have hf2 : 1 + sizeV x + sizeA xs ≤ f := by simpa [sizeA] using hf
    obtain ⟨g, rfl⟩ : ∃ g, f = g + 1 := ⟨f - 1, by omega⟩
    have hrw : renderArr d (.cons x xs) ++ (nlIndent e ++ (']' :: cs))
        = ',' :: (nlIndent d ++ (renderV d x
          ++ (renderArr d xs ++ (nlIndent e ++ (']' :: cs))))) := by
      rw [renderArr]
      simp [List.append_assoc]
    rw [hrw, parseArrRest, skipWs_not_ws (by decide)]
    split
    · rename_i heq
      cases heq
    · rename_i c2 r2 heq
      injection heq with he1 he2
      subst he1
      subst he2
      rw [if_pos rfl]
      have hx : parseV g (nlIndent d ++ (renderV d x
          ++ (renderArr d xs ++ (nlIndent e ++ (']' :: cs)))))
          = some (x, renderArr d xs ++ (nlIndent e ++ (']' :: cs))) :=
        (parseV_congr g (skipWs_nlIndent d _)).trans
          (parse_renderV x g d _ hw2.1 (by omega)
            (notDigitStart_arr_tail xs d e _))
      exact match_parse_arrRest hx
        (parse_renderArr xs g d e cs hw2.2 (by omega))
  termination_by structural a => a

theorem parse_renderObj :
    ∀ (o : JObj) (f d e : Nat) (cs : List Char),
      wfO o = true → sizeO o ≤ f →
      parseObjRest f (renderObj d o ++ (nlIndent e ++ (Char.ofNat 125 :: cs)))
        = some (o, cs)
  | .nil, f, d, e, cs, _, hf => by
    obtain ⟨g, rfl⟩ : ∃ g, f = g + 1 := ⟨f - 1, by simp [sizeO] at hf; omega⟩
    rw [show renderObj d JObj.nil ++ (nlIndent e ++ (Char.ofNat 125 :: cs))
        = nlIndent e ++ (Char.ofNat 125 :: cs) from by rw [renderObj]; simp]
    rw [parseObjRest, skipWs_nlIndent, skipWs_not_ws (by decide)]
    rfl
  | .cons k v tl, f, d, e, cs, hw, hf => by
    have hw2 : (wfStr k = true ∧ wfV v = true) ∧ wfO tl = true := by
      simpa [wfO, Bool.and_eq_true] using hw
    have hf2 : 2 + sizeV v + sizeO tl ≤ f := by simpa [sizeO] using hf
    obtain ⟨g, rfl⟩ : ∃ g, f = g + 1 := ⟨f - 1, by omega⟩
    obtain ⟨g2, rfl⟩ : ∃ g2, g = g2 + 1 := ⟨g - 1, by omega⟩
    have hrw : renderObj d (.cons k v tl) ++ (nlIndent e ++ (Char.ofNat 125 :: cs))
        = ',' :: (nlIndent d ++ (renderStr k ++ (':' :: (' '
          :: (renderV d v ++ (renderObj d tl
            ++ (nlIndent e ++ (Char.ofNat 125 :: cs)))))))) := by
      rw [renderObj]
      simp [List.append_assoc]
    rw [hrw, parseObjRest, skipWs_not_ws (by decide)]
    split
    · rename_i heq
      cases heq
    · rename_i c2 r2 heq
      injection heq with he1 he2
      subst he1
      subst he2
      rw [if_pos rfl]
      have hv2 : parseV g2 (' ' :: (renderV d v ++ (renderObj d tl
          ++ (nlIndent e ++ (Char.ofNat 125 :: cs)))))
          = some (v, renderObj d tl ++ (nlIndent e ++ (Char.ofNat 125 :: cs))) :=
        (parseV_congr g2 (show skipWs (' ' :: (renderV d v ++ (renderObj d tl
            ++ (nlIndent e ++ (Char.ofNat 125 :: cs)))))
          = skipWs (renderV d v ++ (renderObj d tl
            ++ (nlIndent e ++ (Char.ofNat 125 :: cs)))) from rfl)).trans
          (parse_renderV v g2 d _ hw2.1.2 (by omega)
            (notDigitStart_obj_tail tl d e _))
      have hm : parseMember (g2 + 1) (nlIndent d ++ (renderStr k ++ (':' :: (' '
            :: (renderV d v ++ (renderObj d tl
              ++ (nlIndent e ++ (Char.ofNat 125 :: cs))))))))
            = some (k, v, renderObj d tl
                ++ (nlIndent e ++ (Char.ofNat 125 :: cs))) :=
        (parseMember_congr (g2 + 1) (skipWs_nlIndent d _)).trans
          (parseMember_render g2 k hw2.1.1 _ v _ hv2)
      exact match_parse_objRest hm
        (parse_renderObj tl (g2 + 1) d e cs hw2.2 (by omega))
  termination_by structural o => o
end

/-! ## Round-trip through `loads` of the full document. -/

mutual
theorem sizeV_le_length : ∀ (v : JVal) (d : Nat), sizeV v ≤ (renderV d v).length
  | .str s, d => by
    simp [renderV, renderStr, sizeV]
  | .num n, d => by
    rw [renderV, intChars]
    split
    · simp [sizeV]
    · have h := (natDigits_spec n.toNat).1
      simpa [sizeV] using List.length_pos.mpr h
  | .bool b, d => by cases b <;> simp [renderV, sizeV]
  | .arr .nil, d => by simp [renderV, sizeV]
  | .arr (.cons x xs), d => by
    have ihx := sizeV_le_length x (d + 1)
    have iha := sizeA_le_length xs (d + 1)
    simp only [renderV, sizeV, List.length_append, List.length_cons]
    omega
  | .obj .nil, d => by simp [renderV, sizeV]
  | .obj (.cons k v tl), d => by
    have ihv := sizeV_le_length v (d + 1)
    have iho := sizeO_le_length tl (d + 1)
    simp only [renderV, sizeV, List.length_append, List.length_cons]
    omega
  termination_by structural v => v

theorem sizeA_le_length : ∀ (xs : JArr) (d : Nat),
    sizeA xs ≤ (renderArr d xs).length + 1
  | .nil, d => by simp [renderArr, sizeA]
  | .cons x xs, d => by
    have ihx := sizeV_le_length x d
    have iha := sizeA_le_length xs d
    simp only [renderArr, sizeA, List.length_append, List.length_cons]
    omega
  termination_by structural a => a

theorem sizeO_le_length : ∀ (o : JObj) (d : Nat),
    sizeO o ≤ (renderObj d o).length + 1
  | .nil, d => by simp [renderObj, sizeO]
  | .cons k v tl, d => by
    have ihv := sizeV_le_length v d
    have iho := sizeO_le_length tl d
    simp only [renderObj, sizeO, List.length_append, List.length_cons]
    omega
  termination_by structural o => o
end

/-- Serialize-then-deserialize is the identity on well-formed values. -/
theorem loads_dumps (v : JVal) (hw : wfV v = true) : loads (dumps v) = some v := by
  rw [loads, dumps]
  have h1 : sizeV v ≤ (renderV 0 v).length + 1 :=
    (sizeV_le_length v 0).trans (Nat.le_succ _)
  have h2 := parse_renderV v ((renderV 0 v).length + 1) 0 [] hw h1 trivial
  rw [List.append_nil] at h2
  rw [h2]
  rfl

/-! ## The three reports are well-formed whenever the timestamp is. -/


theorem county_report_shape (t : String) :
    county_report t = .obj (.cons "title"
      (.str "Contra Costa County Communications & Contracts Data Extract")
      (.cons "date_generated" (.str t) countyRest)) := rfl


theorem legal_report_shape (t : String) :
    legal_report t = .obj (.cons "title"
      (.str "Legal Documentation Analysis - MVP Construction vs. Contra Costa County")
      (.cons "date_generated" (.str t) legalRest)) := rfl


theorem equity_report_shape (t : String) :
    equity_report t = .obj (.cons "title"
      (.str "JOC Work Distribution Equity Analysis - MVP Construction")
      (.cons "date_generated" (.str t) equityRest)) := rfl

theorem wfV_county_report (t : String) (ht : wfStr t = true) :
    wfV (county_report t) = true := by
  rw [county_report_shape t]
  show ((wfStr "title" && wfV (.str "Contra Costa County Communications & Contracts Data Extract"))
    && ((wfStr "date_generated" && wfV (.str t)) && wfO countyRest)) = true
  rw [show wfV (JVal.str t) = wfStr t from rfl, ht,
    show wfStr "title" = true from by decide,
    show wfV (.str "Contra Costa County Communications & Contracts Data Extract") = true from by decide,
    show wfStr "date_generated" = true from by decide,
    show wfO countyRest = true from by decide]
  rfl

theorem wfV_legal_report (t : String) (ht : wfStr t = true) :
    wfV (legal_report t) = true := by
  rw [legal_report_shape t]
  show ((wfStr "title" && wfV (.str "Legal Documentation Analysis - MVP Construction vs. Contra Costa County"))
    && ((wfStr "date_generated" && wfV (.str t)) && wfO legalRest)) = true
  rw [show wfV (JVal.str t) = wfStr t from rfl, ht,
    show wfStr "title" = true from by decide,
    show wfV (.str "Legal Documentation Analysis - MVP Construction vs. Contra Costa County") = true from by decide,
    show wfStr "date_generated" = true from by decide,
    show wfO legalRest = true from by decide]
  rfl

theorem wfV_equity_report (t : String) (ht : wfStr t = true) :
    wfV (equity_report t) = true := by
  rw [equity_report_shape t]
  show ((wfStr "title" && wfV (.str "JOC Work Distribution Equity Analysis - MVP Construction"))
    && ((wfStr "date_generated" && wfV (.str t)) && wfO equityRest)) = true
  rw [show wfV (JVal.str t) = wfStr t from rfl, ht,
    show wfStr "title" = true from by decide,
    show wfV (.str "JOC Work Distribution Equity Analysis - MVP Construction") = true from by decide,
    show wfStr "date_generated" = true from by decide,
    show wfO equityRest = true from by decide]
  rfl

/-- C5: serialization is a lossless round-trip.  For each script's report
(at any timestamp whose characters are below the astral plane, as every
`isoformat` timestamp is), deserializing the written document returns
exactly the report mapping, and re-serializing it with the same 2-space
formatting reproduces the file content byte for byte. -/
theorem serialization_roundtrip (t : String) (ht : wfStr t = true) :
    ((loads (dumps (county_report t))).map fun v => String.mk (dumps v))
        = some (String.mk (dumps (county_report t)))
    ∧ loads (dumps (county_report t)) = some (county_report t)
    ∧ ((loads (dumps (legal_report t))).map fun v => String.mk (dumps v))
        = some (String.mk (dumps (legal_report t)))
    ∧ loads (dumps (legal_report t)) = some (legal_report t)
    ∧ ((loads (dumps (equity_report t))).map fun v => String.mk (dumps v))
        = some (String.mk (dumps (equity_report t)))
    ∧ loads (dumps (equity_report t)) = some (equity_report t) := by
  have hc := loads_dumps _ (wfV_county_report t ht)
  have hl := loads_dumps _ (wfV_legal_report t ht)
  have he := loads_dumps _ (wfV_equity_report t ht)
  exact ⟨by rw [hc]; rfl, hc, by rw [hl]; rfl, hl, by rw [he]; rfl, he⟩

/-- C5 witness: the round-trip at a concrete timestamp. -/
theorem serialization_roundtrip_witness :
    wfStr "2026-01-05T10:20:30.000001" = true
    ∧ (((loads (dumps (county_report "2026-01-05T10:20:30.000001"))).map
          fun v => String.mk (dumps v))
        = some (String.mk (dumps (county_report "2026-01-05T10:20:30.000001")))
    ∧ loads (dumps (county_report "2026-01-05T10:20:30.000001"))
        = some (county_report "2026-01-05T10:20:30.000001")
    ∧ ((loads (dumps (legal_report "2026-01-05T10:20:30.000001"))).map
          fun v => String.mk (dumps v))
        = some (String.mk (dumps (legal_report "2026-01-05T10:20:30.000001")))
    ∧ loads (dumps (legal_report "2026-01-05T10:20:30.000001"))
        = some (legal_report "2026-01-05T10:20:30.000001")
    ∧ ((loads (dumps (equity_report "2026-01-05T10:20:30.000001"))).map
          fun v => String.mk (dumps v))
        = some (String.mk (dumps (equity_report "2026-01-05T10:20:30.000001")))
    ∧ loads (dumps (equity_report "2026-01-05T10:20:30.000001"))
        = some (equity_report "2026-01-05T10:20:30.000001")) :=
  ⟨by decide, serialization_roundtrip "2026-01-05T10:20:30.000001" (by decide)⟩

/-! ## Literal strings survive serialization verbatim. -/

theorem sublist_ext_left {X B : List Char} (C : List Char) (h : X <:+: B) :
    X <:+: B ++ C := by
  obtain ⟨s, t, rfl⟩ := h
  exact ⟨s, t ++ C, by simp⟩

theorem sublist_ext_right {X B : List Char} (A : List Char) (h : X <:+: B) :
    X <:+: A ++ B := by
  obtain ⟨s, t, rfl⟩ := h
  exact ⟨A ++ s, t, by simp⟩

/-- The rendering of a member's value is a substring of the rendering of
the remaining-members block that contains it. -/
theorem renderObj_lookup_sub :
    ∀ (o : JObj) (k : String) (v : JVal) (d : Nat),
      o.lookup k = some v → renderV d v <:+: renderObj d o
  | .nil, k, v, d, h => by simp [JObj.lookup] at h
  | .cons k2 v2 tl, k, v, d, h => by
    rw [JObj.lookup] at h
    by_cases hk : k2 = k
    · rw [if_pos hk] at h
      injection h with h
      subst h
      have h1 : renderV d v2 <:+: ':' :: ' ' :: renderV d v2 :=
        ⟨[':', ' '], [], by simp⟩
      have h2 : renderV d v2 <:+:
          nlIndent d ++ (renderStr k2 ++ ':' :: ' ' :: renderV d v2) :=
        sublist_ext_right _ (sublist_ext_right _ h1)
      exact List.infix_cons (sublist_ext_left _ h2)
    · rw [if_neg hk] at h
      exact List.infix_cons
        (sublist_ext_right _ (renderObj_lookup_sub tl k v d h))

/-- The rendering of a member's value is a substring of the rendering of
the object. -/
theorem renderV_lookup_sub (o : JObj) (k : String) (v : JVal) (d : Nat)
    (h : o.lookup k = some v) :
    renderV (d + 1) v <:+: renderV d (.obj o) := by
  cases o with
  | nil => simp [JObj.lookup] at h
  | cons k2 v2 tl =>
    rw [JObj.lookup] at h
    rw [renderV]
    by_cases hk : k2 = k
    · rw [if_pos hk] at h
      injection h with h
      subst h
      have h1 : renderV (d + 1) v2 <:+: ':' :: ' ' :: renderV (d + 1) v2 :=
        ⟨[':', ' '], [], by simp⟩
      have h2 : renderV (d + 1) v2 <:+:
          nlIndent (d + 1)
            ++ (renderStr k2 ++ ':' :: ' ' :: renderV (d + 1) v2) :=
        sublist_ext_right _ (sublist_ext_right _ h1)
      exact List.infix_cons (sublist_ext_left _ (sublist_ext_left _
        (sublist_ext_left _ h2)))
    · rw [if_neg hk] at h
      have h2 := renderObj_lookup_sub tl k v (d + 1) h
      exact List.infix_cons (sublist_ext_left _ (sublist_ext_left _
        (sublist_ext_right _ h2)))

/-- A value reachable by a key path is rendered (at some depth) inside the
rendering of the whole document. -/
theorem getPath_sub :
    ∀ (p : List String) (r : JVal) (d : Nat) (v : JVal),
      getPath r p = some v → ∃ d2, renderV d2 v <:+: renderV d r := by
  intro p
  induction p with
  | nil =>
    intro r d v h
    rw [getPath] at h
    injection h with h
    subst h
    exact ⟨d, List.infix_rfl⟩
  | cons k ks ih =>
    intro r d v h
    cases r with
    | obj o =>
      rw [getPath] at h
      cases hl : o.lookup k with
      | none => rw [hl] at h; cases h
      | some w =>
        rw [hl] at h
        obtain ⟨d2, hi⟩ := ih w (d + 1) v h
        exact ⟨d2, hi.trans (renderV_lookup_sub o k w d hl)⟩
    | str s => simp [getPath] at h
    | num n => simp [getPath] at h
    | bool b => simp [getPath] at h
    | arr a => simp [getPath] at h

/-- A string value reachable by a key path, whose characters need no JSON
escaping, appears verbatim in the serialized document. -/
theorem getPath_str_verbatim (r : JVal) (p : List String) (s : String)
    (h : getPath r p = some (.str s))
    (he : escapeList s.toList = s.toList) :
    s.toList <:+: dumps r := by
  obtain ⟨d2, hi⟩ := getPath_sub p r 0 (.str s) h
  refine List.IsInfix.trans ?_ hi
  show s.toList <:+: renderStr s
  rw [renderStr, he]
  exact List.infix_cons ⟨[], [Char.ofNat 34], by simp⟩

/-- The rendering of an element is a substring of the rendering of the
remaining-elements block that contains it. -/
theorem renderArr_get_sub :
    ∀ (a : JArr) (i : Nat) (x : JVal) (d : Nat),
      a.get? i = some x → renderV d x <:+: renderArr d a
  | .nil, i, x, d, h => by simp [JArr.get?] at h
  | .cons y tl, 0, x, d, h => by
    rw [JArr.get?] at h
    injection h with h
    subst h
    rw [renderArr]
    exact List.infix_cons
      (sublist_ext_left _ (sublist_ext_right _ List.infix_rfl))
  | .cons y tl, i + 1, x, d, h => by
    rw [JArr.get?] at h
    rw [renderArr]
    exact List.infix_cons
      (sublist_ext_right _ (renderArr_get_sub tl i x d h))

/-- The rendering of an array element is a substring of the rendering of
the array. -/
theorem renderV_index_sub (a : JArr) (i : Nat) (x : JVal) (d : Nat)
    (h : a.get? i = some x) :
    renderV (d + 1) x <:+: renderV d (.arr a) := by
  cases a with
  | nil => simp [JArr.get?] at h
  | cons y tl =>
    rw [renderV]
    cases i with
    | zero =>
      rw [JArr.get?] at h
      injection h with h
      subst h
      exact List.infix_cons (sublist_ext_left _ (sublist_ext_left _
        (sublist_ext_left _ (sublist_ext_right _ List.infix_rfl))))
    | succ i =>
      rw [JArr.get?] at h
      exact List.infix_cons (sublist_ext_left _ (sublist_ext_left _
        (sublist_ext_right _ (renderArr_get_sub tl i x (d + 1) h))))

/-- A value reachable by a path of object keys and array indices is
rendered (at some depth) inside the rendering of the whole document. -/
theorem getPathG_sub :
    ∀ (p : List (String ⊕ Nat)) (r : JVal) (d : Nat) (v : JVal),
      getPathG r p = some v → ∃ d2, renderV d2 v <:+: renderV d r := by
  intro p
  induction p with
  | nil =>
    intro r d v h
    rw [getPathG] at h
    injection h with h
    subst h
    exact ⟨d, List.infix_rfl⟩
  | cons st ps ih =>
    intro r d v h
    cases st with
    | inl k =>
      cases r with
      | obj o =>
        rw [getPathG] at h
        cases hl : o.lookup k with
        | none => rw [hl] at h; cases h
        | some w =>
          rw [hl] at h
          obtain ⟨d2, hi⟩ := ih w (d + 1) v h
          exact ⟨d2, hi.trans (renderV_lookup_sub o k w d hl)⟩
      | str sv => simp [getPathG] at h
      | num n => simp [getPathG] at h
      | bool b => simp [getPathG] at h
      | arr a => simp [getPathG] at h
    | inr i =>
      cases r with
      | arr a =>
        rw [getPathG] at h
        cases hl : a.get? i with
        | none => rw [hl] at h; cases h
        | some w =>
          rw [hl] at h
          obtain ⟨d2, hi⟩ := ih w (d + 1) v h
          exact ⟨d2, hi.trans (renderV_index_sub a i w d hl)⟩
      | str sv => simp [getPathG] at h
      | num n => simp [getPathG] at h
      | bool b => simp [getPathG] at h
      | obj o => simp [getPathG] at h

/-- A string value reachable by a path of object keys and array indices,
whose characters need no JSON escaping, appears verbatim in the serialized
document. -/
theorem getPathG_str_verbatim (r : JVal) (p : List (String ⊕ Nat))
    (s : String) (h : getPathG r p = some (.str s))
    (he : escapeList s.toList = s.toList) :
    s.toList <:+: dumps r := by
  obtain ⟨d2, hi⟩ := getPathG_sub p r 0 (.str s) h
  refine List.IsInfix.trans ?_ hi
  show s.toList <:+: renderStr s
  rw [renderStr, he]
  exact List.infix_cons ⟨[], [Char.ofNat 34], by simp⟩

/-- C4: every literal monetary or identifier string reachable in a report
at any path of object keys and array indices (none of whose characters
JSON-escapes) appears character-for-character in that script's serialized
output. -/
theorem literal_strings_verbatim (t : String)
    (p1 p2 p3 : List (String ⊕ Nat)) (s1 s2 s3 : String)
    (h1 : getPathG (county_report t) p1 = some (.str s1))
    (e1 : escapeList s1.toList = s1.toList)
    (h2 : getPathG (equity_report t) p2 = some (.str s2))
    (e2 : escapeList s2.toList = s2.toList)
    (h3 : getPathG (legal_report t) p3 = some (.str s3))
    (e3 : escapeList s3.toList = s3.toList) :
    s1.toList <:+: dumps (county_report t)
    ∧ s2.toList <:+: dumps (equity_report t)
    ∧ s3.toList <:+: dumps (legal_report t) :=
  ⟨getPathG_str_verbatim _ _ _ h1 e1, getPathG_str_verbatim _ _ _ h2 e2,
   getPathG_str_verbatim _ _ _ h3 e3⟩

/-- C4 witness: `$1,879,526.93` (JOC-017's total issued amount, held at
object keys) appears verbatim in both the county and equity outputs, and
so do strings held inside arrays: `$313,519.21` (a `sample_projects`
amount) in the county output, `$988,469.46` (a `project_samples` amount)
in the equity output, and the invoice identifier `023-007-004` (an
`invoices_disputed` element) in the legal output. -/
theorem literal_strings_verbatim_witness :
    (getPathG (county_report "2026-01-01T00:00:00")
        [.inl "extracted_data", .inl "contracts", .inl "joc_contracts",
         .inl "joc_017_020", .inl "other_contractors",
         .inl "Mark Scott Construction"]
      = some (.str "$1,879,526.93")
    ∧ getPathG (equity_report "2026-01-01T00:00:00")
        [.inl "metrics", .inl "joc_017_018_019_020", .inl "total_issued",
         .inl "JOC-017"]
      = some (.str "$1,879,526.93")
    ∧ getPathG (county_report "2026-01-01T00:00:00")
        [.inl "extracted_data", .inl "public_records",
         .inl "job_order_tracking_reports", .inl "joc_017_mark_scott",
         .inl "sample_projects", .inr 0, .inl "amount"]
      = some (.str "$313,519.21")
    ∧ getPathG (equity_report "2026-01-01T00:00:00")
        [.inl "metrics", .inl "joc_017_018_019_020", .inl "project_samples",
         .inr 1, .inl "amount"]
      = some (.str "$988,469.46")
    ∧ getPathG (legal_report "2026-01-01T00:00:00")
        [.inl "legal_requirements", .inl "payment_law",
         .inl "mvc_application", .inl "invoices_disputed", .inr 0]
      = some (.str "023-007-004")
    ∧ getPathG (legal_report "2026-01-01T00:00:00")
        [.inl "extracted_contracts", .inl "aztec_joc_018", .inl "key_terms",
         .inl "maximum_value"]
      = some (.str "$3,000,000.00")
    ∧ escapeList "$1,879,526.93".toList = "$1,879,526.93".toList
    ∧ escapeList "$313,519.21".toList = "$313,519.21".toList
    ∧ escapeList "$988,469.46".toList = "$988,469.46".toList
    ∧ escapeList "023-007-004".toList = "023-007-004".toList
    ∧ escapeList "$3,000,000.00".toList = "$3,000,000.00".toList)
    ∧ ("$1,879,526.93".toList <:+: dumps (county_report "2026-01-01T00:00:00")
    ∧ "$1,879,526.93".toList <:+: dumps (equity_report "2026-01-01T00:00:00")
    ∧ "$3,000,000.00".toList <:+: dumps (legal_report "2026-01-01T00:00:00"))
    ∧ ("$313,519.21".toList <:+: dumps (county_report "2026-01-01T00:00:00")
    ∧ "$988,469.46".toList <:+: dumps (equity_report "2026-01-01T00:00:00")
    ∧ "023-007-004".toList <:+: dumps (legal_report "2026-01-01T00:00:00")) :=
  ⟨⟨rfl, rfl, rfl, rfl, rfl, rfl, by decide, by decide, by decide,
    by decide, by decide⟩,
   literal_strings_verbatim "2026-01-01T00:00:00"
     [.inl "extracted_data", .inl "contracts", .inl "joc_contracts",
      .inl "joc_017_020", .inl "other_contractors",
      .inl "Mark Scott Construction"]
     [.inl "metrics", .inl "joc_017_018_019_020", .inl "total_issued",
      .inl "JOC-017"]
     [.inl "extracted_contracts", .inl "aztec_joc_018", .inl "key_terms",
      .inl "maximum_value"]
     "$1,879,526.93" "$1,879,526.93" "$3,000,000.00"
     rfl (by decide) rfl (by decide) rfl (by decide),
   literal_strings_verbatim "2026-01-01T00:00:00"
     [.inl "extracted_data", .inl "public_records",
      .inl "job_order_tracking_reports", .inl "joc_017_mark_scott",
      .inl "sample_projects", .inr 0, .inl "amount"]
     [.inl "metrics", .inl "joc_017_018_019_020", .inl "project_samples",
      .inr 1, .inl "amount"]
     [.inl "legal_requirements", .inl "payment_law",
      .inl "mvc_application", .inl "invoices_disputed", .inr 0]
     "$313,519.21" "$988,469.46" "023-007-004"
     rfl (by decide) rfl (by decide) rfl (by decide)⟩

/-! ## Claim theorems (first batch). -/

/-- C1: report generation is deterministic in the sampled clock value, and
two reports generated at different clock readings differ only in the value
of the `date_generated` field: the report at `t1` is exactly the report at
`t2` with its `date_generated` value replaced.  (Since each report is a
function of the sampled `datetime.now().isoformat()` string, equal clock
readings give equal reports, hence byte-identical serializations.) -/
theorem reports_differ_only_in_timestamp (t1 t2 : String) :
    county_report t1 = setTop "date_generated" (.str t1) (county_report t2)
    ∧ (topObj (county_report t1)).lookup "date_generated" = some (.str t1)
    ∧ legal_report t1 = setTop "date_generated" (.str t1) (legal_report t2)
    ∧ (topObj (legal_report t1)).lookup "date_generated" = some (.str t1)
    ∧ equity_report t1 = setTop "date_generated" (.str t1) (equity_report t2)
    ∧ (topObj (equity_report t1)).lookup "date_generated" = some (.str t1) :=
  ⟨rfl, rfl, rfl, rfl, rfl, rfl⟩

/-- C2 (counterexample): the county report's top-level key set is not
`{title, date_generated, extracted_data}`: `data_sources` is also a
top-level key. -/
theorem county_keys_not_as_documented :
    "data_sources" ∈ (topObj (county_report "2026-02-03T04:05:06.000001")).keys
    ∧ "data_sources" ∉ (["title", "date_generated", "extracted_data"] : List String) := by
  decide

/-- C2 (amended): each script's report has a fixed list of top-level keys,
the same on every run; for the county script these are `title`,
`date_generated`, `data_sources`, `extracted_data`, `analysis_notes`. -/
theorem report_top_level_keys (t : String) :
    (topObj (county_report t)).keys =
      ["title", "date_generated", "data_sources", "extracted_data", "analysis_notes"]
    ∧ (topObj (legal_report t)).keys =
      ["title", "date_generated", "jurisdiction", "case_focus", "extracted_contracts",
       "legal_requirements", "disputed_matters", "legal_framework", "analysis_summary"]
    ∧ (topObj (equity_report t)).keys =
      ["title", "date_generated", "jurisdiction", "analysis", "communications",
       "metrics", "recommendations"] :=
  ⟨rfl, rfl, rfl⟩

/-- C3: a run of the equity tracker writes `joc_equity_analysis.json`
containing the serialized report, whose `analysis.findings.mvc_historical_revenue`
is the string `$250,000` and whose `recommendations` is exactly the five
strings below, in source order. -/
theorem equity_run_output (t : String) (files : String → Option String) :
    mvc_main t ⟨true, files⟩ = .ok
      (⟨true, fun n => if n = "joc_equity_analysis.json"
          then some (String.mk (dumps (equity_report t))) else files n⟩,
       String.mk (dumps (equity_report t) ++ ['\n']))
    ∧ getPath (equity_report t) ["analysis", "findings", "mvc_historical_revenue"]
        = some (.str "$250,000")
    ∧ (topObj (equity_report t)).lookup "recommendations" = some (.arr
        (.cons (.str "Request formal audit of JOC work distribution methodology")
        (.cons (.str "Document all RFP distribution patterns for legal review")
        (.cons (.str "File Public Contract Code Section 20104.50 payment compliance request")
        (.cons (.str "Consider legal action for disparate contract treatment")
        (.cons (.str "Archive all correspondence for potential litigation")
        .nil)))))) :=
  ⟨rfl, rfl, rfl⟩

/-- C7: on every run of each entry point, the text printed to stdout is the
serialization of the same report mapping (same single timestamp sample)
that was written to the output file, with the same 2-space
pretty-printing; `print` appends one newline. -/
theorem stdout_equals_written_file (t : String) (files : String → Option String) :
    county_main t ⟨true, files⟩ = .ok
      (⟨true, fun n => if n = "county_communications_extract.json"
          then some (String.mk (dumps (county_report t))) else files n⟩,
       String.mk (dumps (county_report t) ++ ['\n']))
    ∧ legal_main t ⟨true, files⟩ = .ok
      (⟨true, fun n => if n = "legal_analysis_extract.json"
          then some (String.mk (dumps (legal_report t))) else files n⟩,
       String.mk (dumps (legal_report t) ++ ['\n']))
    ∧ mvc_main t ⟨true, files⟩ = .ok
      (⟨true, fun n => if n = "joc_equity_analysis.json"
          then some (String.mk (dumps (equity_report t))) else files n⟩,
       String.mk (dumps (equity_report t) ++ ['\n'])) :=
  ⟨rfl, rfl, rfl⟩

/-- C8: a script run fails exactly when the filesystem rejects the write in
`save_report`; the `OSError` propagates uncaught (no handler exists), and
with a writable filesystem every run succeeds — every other modelled
operation is total. -/
theorem write_failure_is_only_failure (t : String) (files : String → Option String) :
    (∀ b : Bool, (∃ e, county_main t ⟨b, files⟩ = .error e) ↔ b = false)
    ∧ (∀ b : Bool, (∃ e, legal_main t ⟨b, files⟩ = .error e) ↔ b = false)
    ∧ (∀ b : Bool, (∃ e, mvc_main t ⟨b, files⟩ = .error e) ↔ b = false)
    ∧ county_main t ⟨false, files⟩ = .error "OSError: [Errno 13] Permission denied"
    ∧ legal_main t ⟨false, files⟩ = .error "OSError: [Errno 13] Permission denied"
    ∧ mvc_main t ⟨false, files⟩ = .error "OSError: [Errno 13] Permission denied" := by
  refine ⟨fun b => ?_, fun b => ?_, fun b => ?_, rfl, rfl, rfl⟩ <;>
    cases b <;>
    simp [county_main, legal_main, mvc_main,
      CountyOfficialsScraper.save_report, LegalDocumentsScraper.save_report,
      MVPContractorTracker.save_report, FS.write, Except.map]

/-- C10: `save_report` returns exactly the filename it wrote to, for any
report and any filename argument, including each script's default. -/
theorem save_report_returns_filename
    (sc : CountyOfficialsScraper) (sl : LegalDocumentsScraper)
    (sm : MVPContractorTracker) (r : JVal)
    (files : String → Option String) (fn : String) :
    (sc.save_report r ⟨true, files⟩ fn).map (fun x => x.2.1) = .ok fn
    ∧ (sc.save_report r ⟨true, files⟩).map (fun x => x.2.1)
        = .ok "county_communications_extract.json"
    ∧ (sl.save_report r ⟨true, files⟩ fn).map (fun x => x.2.1) = .ok fn
    ∧ (sl.save_report r ⟨true, files⟩).map (fun x => x.2.1)
        = .ok "legal_analysis_extract.json"
    ∧ (sm.save_report r ⟨true, files⟩ fn).map (fun x => x.2.1) = .ok fn
    ∧ (sm.save_report r ⟨true, files⟩).map (fun x => x.2.1)
        = .ok "joc_equity_analysis.json" :=
  ⟨rfl, rfl, rfl, rfl, rfl, rfl⟩
/-- C9: every extract/scrape/analyze operation leaves the scraper object
unchanged and returns the same fixed mapping as it returns on the
freshly-constructed object, on every invocation; consequently any sequence
of such operations, in any order, leaves the object unchanged.  The
`generate_*` operations also leave the object unchanged. -/
theorem extract_ops_pure :
    (∀ (o : CountyOp) (s : CountyOfficialsScraper),
      countyOpRun o s = (s, (countyOpRun o CountyOfficialsScraper.init).2))
    ∧ (∀ (o : LegalOp) (s : LegalDocumentsScraper),
      legalOpRun o s = (s, (legalOpRun o LegalDocumentsScraper.init).2))
    ∧ (∀ (o : MvcOp) (s : MVPContractorTracker),
      mvcOpRun o s = (s, (mvcOpRun o MVPContractorTracker.init).2))
    ∧ (∀ (l : List CountyOp) (s : CountyOfficialsScraper),
      l.foldl (fun s o => (countyOpRun o s).1) s = s)
    ∧ (∀ (l : List LegalOp) (s : LegalDocumentsScraper),
      l.foldl (fun s o => (legalOpRun o s).1) s = s)
    ∧ (∀ (l : List MvcOp) (s : MVPContractorTracker),
      l.foldl (fun s o => (mvcOpRun o s).1) s = s)
    ∧ (∀ (s : CountyOfficialsScraper) (now : String),
      (s.generate_complete_report now).1 = s)
    ∧ (∀ (s : LegalDocumentsScraper) (now : String),
      (s.generate_legal_analysis_report now).1 = s)
    ∧ (∀ (s : MVPContractorTracker) (now : String),
      (s.generate_equity_report now).1 = s) := by
  refine ⟨fun o s => by cases o <;> rfl,
          fun o s => by cases o <;> rfl,
          fun o s => by cases o <;> rfl,
          fun l => ?_, fun l => ?_, fun l => ?_,
          fun s now => rfl, fun s now => rfl, fun s now => rfl⟩
  · induction l with
    | nil => intro s; rfl
    | cons o l ih =>
      intro s
      have h : (countyOpRun o s).1 = s := by cases o <;> rfl
      simp only [List.foldl_cons, h]
      exact ih s
  · induction l with
    | nil => intro s; rfl
    | cons o l ih =>
      intro s
      have h : (legalOpRun o s).1 = s := by cases o <;> rfl
      simp only [List.foldl_cons, h]
      exact ih s
  · induction l with
    | nil => intro s; rfl
    | cons o l ih =>
      intro s
      have h : (mvcOpRun o s).1 = s := by cases o <;> rfl
      simp only [List.foldl_cons, h]
      exact ih s

/-- C6: each entry point serializes its report with 2-space indentation
(the `dumps` format) to its fixed default filename, replacing any previous
content of that file and touching no other file; the document is pure
ASCII, so its UTF-8 encoding is exactly those bytes. -/
theorem save_report_persists_fixed_file (t : String)
    (files : String → Option String) (n : String) :
    (county_main t ⟨true, files⟩).map (fun x => x.1.files n) =
      .ok (if n = "county_communications_extract.json"
        then some (String.mk (dumps (county_report t))) else files n)
    ∧ (legal_main t ⟨true, files⟩).map (fun x => x.1.files n) =
      .ok (if n = "legal_analysis_extract.json"
        then some (String.mk (dumps (legal_report t))) else files n)
    ∧ (mvc_main t ⟨true, files⟩).map (fun x => x.1.files n) =
      .ok (if n = "joc_equity_analysis.json"
        then some (String.mk (dumps (equity_report t))) else files n)
    ∧ allAscii (dumps (county_report t))
    ∧ allAscii (dumps (legal_report t))
    ∧ allAscii (dumps (equity_report t)) :=
  ⟨rfl, rfl, rfl, allAscii_dumps _, allAscii_dumps _, allAscii_dumps _⟩
